import Mathlib

/-!
Shallow embedding of the server-side client handling code of an ioq3-based
game server (file `code/server/sv_client.c`), together with theorems checking
the natural-language specification against it.

Modelling conventions:
* C `int` values are modelled as `Int`; where the code performs bitwise XOR on
  `int` the operation is modelled as two's-complement 32-bit XOR (`xor32`).
* The tokenizer (`Cmd_TokenizeString`), the message reader (`MSG_*`), and the
  userinfo string functions (`Info_*`) live outside the analysed file; inbound
  commands are therefore modelled pre-tokenized as `List String`, inbound
  binary messages as a structured record, and the userinfo blob as an
  association list of keys and values.
* Calls into the game module (`VM_Call`), network sends
  (`NET_OutOfBandPrint`, `SV_SendServerCommand`, snapshot and gamestate
  transmission) and similar external actions are recorded as an ordered trace
  of `Effect` values; console logging (`Com_Printf`/`Com_DPrintf`) is not
  traced.
* Compile-time switches `LEGACY_PROTOCOL`, `USE_VOIP`, `USE_AUTH` and
  `USE_SKEETMOD` are taken as disabled, and `NDEBUG` as defined (release
  build), matching the default build of the engine.
-/

/-- Client connection states, in the order of the C enum
`CS_FREE, CS_ZOMBIE, CS_CONNECTED, CS_PRIMED, CS_ACTIVE`. -/
inductive ClientState where
  | free
  | zombie
  | connected
  | primed
  | active
deriving DecidableEq, Repr

/-- Numeric value of the C enum, used for the `>=` comparisons in the code. -/
def ClientState.toNat : ClientState → Nat
  | .free => 0
  | .zombie => 1
  | .connected => 2
  | .primed => 3
  | .active => 4

/-- Modelled from the spec: a network address. The low-level address
representation and the predicates `NET_IsLocalAddress` (loopback),
`Sys_IsLANAddress` (loopback or private LAN range) and `NA_BOT` live outside
the analysed file; the address is modelled by its base (network part), port,
and classification flags. A loopback address is always also a LAN address. -/
structure NetAdr where
  base : Nat
  port : Nat
  isLoopback : Bool
  isPrivateLAN : Bool
  isBot : Bool
deriving DecidableEq, Repr

/-- Modelled from the spec: `NET_IsLocalAddress` — true for the loopback
(local) address only. -/
def NET_IsLocalAddress (a : NetAdr) : Bool := a.isLoopback

/-- Modelled from the spec: `Sys_IsLANAddress` — true for loopback and for
private-range (LAN) addresses. -/
def Sys_IsLANAddress (a : NetAdr) : Bool := a.isLoopback || a.isPrivateLAN

/-- Modelled from the spec: `NET_CompareAdr` — full address comparison. -/
def NET_CompareAdr (a b : NetAdr) : Bool := a == b

/-- Modelled from the spec: `NET_CompareBaseAdr` — comparison of the network
part only, ignoring the port. -/
def NET_CompareBaseAdr (a b : NetAdr) : Bool :=
  a.base == b.base && a.isLoopback == b.isLoopback && a.isPrivateLAN == b.isPrivateLAN
    && a.isBot == b.isBot

/-- Modelled from the spec: printable form of an address with port, as
produced by `NET_AdrToStringwPort`. -/
def adrToString (a : NetAdr) : String := toString a.base ++ ":" ++ toString a.port

/-- A user command; only the field the analysed code inspects is modelled. -/
structure Usercmd where
  serverTime : Int
deriving DecidableEq, Repr

instance : Inhabited Usercmd := ⟨⟨0⟩⟩

/-- A pending handshake entry (`challenge_t`). -/
structure Challenge where
  adr : NetAdr
  challenge : Int
  clientChallenge : Int
  time : Int
  pingTime : Int
  connected : Bool
  wasrefused : Bool
deriving DecidableEq, Repr

/-- The all-zero challenge record, as produced by `Com_Memset(challenge, 0)`. -/
def emptyChallenge : Challenge :=
  { adr := ⟨0, 0, false, false, false⟩, challenge := 0, clientChallenge := 0,
    time := 0, pingTime := 0, connected := false, wasrefused := false }

/-- The userinfo blob. Modelled from the spec: a flat key/value string of
bounded length, represented as an association list. -/
abbrev Userinfo := List (String × String)

/-- One client slot (`client_t`); only the fields the analysed code reads or
writes are modelled. -/
structure Client where
  state : ClientState
  remoteAddress : NetAdr
  qport : Int
  challenge : Int
  netchanOutgoingSequence : Int
  reliableSequence : Int
  reliableAcknowledge : Int
  lastClientCommand : Int
  lastClientCommandString : List String
  messageAcknowledge : Int
  gamestateMessageNum : Int
  deltaMessage : Int
  nextReliableTime : Int
  nextReliableUserTime : Int
  numcmds : Int
  lastUsercmd : Usercmd
  lastSnapshotTime : Int
  snapshotMsec : Int
  pureAuthentic : Int
  gotCP : Bool
  rate : Int
  name : String
  userinfo : Userinfo
  userinfobuffer : String
  lastConnectTime : Int
  lastPacketTime : Int
  oldServerTime : Int
  demoRecording : Bool

/-- The zeroed client slot, as produced by `Com_Memset(newcl, 0)`. -/
def zeroClient : Client :=
  { state := .free, remoteAddress := ⟨0, 0, false, false, false⟩, qport := 0,
    challenge := 0, netchanOutgoingSequence := 0, reliableSequence := 0,
    reliableAcknowledge := 0, lastClientCommand := 0,
    lastClientCommandString := [], messageAcknowledge := 0,
    gamestateMessageNum := 0, deltaMessage := 0, nextReliableTime := 0,
    nextReliableUserTime := 0, numcmds := 0, lastUsercmd := ⟨0⟩,
    lastSnapshotTime := 0, snapshotMsec := 0, pureAuthentic := 0,
    gotCP := false, rate := 0, name := "", userinfo := [],
    userinfobuffer := "", lastConnectTime := 0, lastPacketTime := 0,
    oldServerTime := 0, demoRecording := false }

/-- Observable external actions of the analysed code, in order of occurrence. -/
inductive Effect where
  | stopRecord
  | freeClient
  | broadcastPrint (name reason : String)
  | stopServerDemo
  | gameClientDisconnect
  | sendDisconnect (reason : String)
  | botFree
  | heartbeat
  | sendSnapshot (st : ClientState)
  | gamestateSent (ackedClientCommand reliableSequence : Int)
  | updateConfigstrings
  | startRecord
  | gameClientBegin
  | gameClientThink (serverTime : Int)
  | gameClientCommand
  | gameClientUserinfoChanged
  | execClientCommand (args : List String)
  | forceteam
  | printToClient (s : String)
  | oobPrint (s : String)
  | connectResponse (challenge : Int)
deriving DecidableEq, Repr

/-- Server-wide configuration and per-frame globals read by the analysed
code (cvars, the `sv`/`svs` structs, and results of external queries). -/
structure Globals where
  svsTime : Int
  svServerId : Int
  svRestartedServerId : Int
  checksumFeed : Int
  checksumFeedServerId : Int
  svStateGame : Bool
  sv_floodProtect : Int
  sv_pure : Int
  sv_fps : Int
  sv_lanForceRate : Int
  sv_autoRecordDemo : Int
  sv_teamSwitch : Int
  g_matchmode : Int
  sv_reconnectlimit : Int
  sv_minPing : Int
  sv_maxPing : Int
  sv_clientsPerIp : Int
  sv_privateClients : Int
  sv_privatePassword : String
  com_cl_running : Int
  com_dedicated : Int
  com_protocol : Int
  /-- result of `FS_FileIsInPAK("vm/cgame.qvm")` and `.../ui.qvm`:
  whether both lookups succeeded. -/
  fsFilesInPak : Bool
  /-- the cgame checksum reported by `FS_FileIsInPAK`. -/
  cgameChecksum : Int
  /-- the ui checksum reported by `FS_FileIsInPAK`. -/
  uiChecksum : Int
  /-- parsed `FS_LoadedPakPureChecksums()` list. -/
  serverPaks : List Int
  /-- bans table (`serverBans`): network part and exception flag. -/
  bans : List (Nat × Bool)
  /-- result of the game module's `GAME_CLIENT_CONNECT` call: a rejection
  string, or none to accept. -/
  gameDeniedReason : Option String

/-- Modelled from the spec: `MAX_RELIABLE_COMMANDS`, the reliable-window size
(64 in the engine headers, which are outside the analysed file). -/
def MAX_RELIABLE_COMMANDS : Int := 64

/-- Modelled from the spec: `MAX_PACKET_USERCMDS` (32 in the engine headers). -/
def MAX_PACKET_USERCMDS : Nat := 32

/-- Modelled from the spec: `MAX_INFO_STRING` (1024 in the engine headers). -/
def MAX_INFO_STRING : Nat := 1024

/-- Modelled from the spec: per-argument-group cap for `say`-like commands
(engine header constant, outside the analysed file). -/
def MAX_SAY_STRLEN : Nat := 256

/-- Modelled from the spec: per-argument-group cap for `ut_radio`
(engine header constant, outside the analysed file). -/
def MAX_RADIO_STRLEN : Nat := 16

/-- Modelled from the spec: cap on dollar-variable expansions per command
(engine header constant, outside the analysed file). -/
def MAX_DOLLAR_VARS : Nat := 8

/-- Modelled from the spec: fixed extra budget charged per dollar variable
(engine header constant, outside the analysed file). -/
def STRLEN_INCREMENT_PER_DOLLAR_VAR : Nat := 64

/-- Accumulate decimal digits, stopping at the first non-digit (`atoi` core). -/
def digitsVal : List Char → Nat → Nat
  | c :: cs, acc => if c.isDigit then digitsVal cs (acc * 10 + (c.toNat - 48)) else acc
  | [], acc => acc

/-- Ideal (unbounded) value parsed by C `atoi`: optional leading whitespace,
optional sign, leading decimal digits. -/
def atoiRaw (s : String) : Int :=
  let cs := s.toList.dropWhile (fun c => c = ' ' ∨ c = '\t' ∨ c = '\n' ∨ c = '\r')
  match cs with
  | '-' :: rest => - Int.ofNat (digitsVal rest 0)
  | '+' :: rest => Int.ofNat (digitsVal rest 0)
  | _ => Int.ofNat (digitsVal cs 0)

/-- The 32-bit pattern of an `int` value. -/
def nat32 (i : Int) : Nat := (i % (2 ^ 32 : Int)).toNat

/-- Reinterpret a 32-bit pattern as a signed `int`. -/
def int32ofNat (n : Nat) : Int :=
  if n < 2 ^ 31 then (n : Int) else (n : Int) - 2 ^ 32

/-- Truncate to the `int` range (two's complement). -/
def int32 (i : Int) : Int := int32ofNat (nat32 i)

/-- C `atoi`, with the result truncated to the `int` range. -/
def atoi (s : String) : Int := int32 (atoiRaw s)

/-- Bitwise XOR of two `int` values (on their 32-bit patterns). -/
def xor32 (a b : Int) : Int := int32ofNat (Nat.xor (nat32 a) (nat32 b))

/-- `Cmd_Argv i`: the i-th token, or the empty string when out of range. -/
def argvD (args : List String) (i : Nat) : String := args.getD i ""

/-- First character of a token; `'\0'` (here `Char.ofNat 0`) when empty,
matching C `*pArg` on an empty string. -/
def firstChar (s : String) : Char := s.toList.headD (Char.ofNat 0)

/-- ASCII lower-casing of one character (`tolower`). -/
def charToLower (c : Char) : Char :=
  if 'A' ≤ c ∧ c ≤ 'Z' then Char.ofNat (c.toNat + 32) else c

/-- `Q_stricmp x y == 0`: ASCII case-insensitive string equality. -/
def qStricmpEq (a b : String) : Bool :=
  a.toList.map charToLower == b.toList.map charToLower

/-- `Info_ValueForKey`: case-insensitive key lookup in the userinfo blob. -/
def infoValue (u : Userinfo) (key : String) : String :=
  match u.find? (fun p => qStricmpEq p.1 key) with
  | some p => p.2
  | none => ""

/-- `Info_SetValueForKey`: replace (or append) a key in the userinfo blob. -/
def infoSet (u : Userinfo) (key v : String) : Userinfo :=
  u.filter (fun p => ¬ qStricmpEq p.1 key) ++ [(key, v)]

/-- Modelled from the spec: encoded length of the userinfo blob
(`strlen` of the flat `\\key\\value` string). -/
def infoStrLen (u : Userinfo) : Nat :=
  u.foldl (fun acc p => acc + 2 + p.1.length + p.2.length) 0

/-- The world a per-client handler acts on: the subject client, the challenge
table, and the remaining client slots (read for the heartbeat scans). -/
structure World where
  cl : Client
  challenges : List Challenge
  others : List Client

/-- Scan the challenge table for the first record matching `adr` and zero it
(`Com_Memset(challenge, 0, sizeof(*challenge))` in `SV_DropClient`). -/
def clearChallenge (adr : NetAdr) : List Challenge → List Challenge
  | [] => []
  | c :: rest =>
    if NET_CompareAdr adr c.adr then emptyChallenge :: rest
    else c :: clearChallenge adr rest

/-- `SV_DropClient`: remove a player from the server. Returns the updated
world and the trace of side effects, in the order the code performs them. -/
def SV_DropClient (g : Globals) (w : World) (reason : String) : World × List Effect :=
  let drop := w.cl
  let isBot := drop.remoteAddress.isBot
  let e0 : List Effect := if drop.demoRecording then [.stopRecord] else []
  if drop.state = .zombie then (w, e0)
  else
    let challenges' :=
      if ¬ isBot then clearChallenge drop.remoteAddress w.challenges else w.challenges
    let e1 := e0 ++ [.freeClient, .broadcastPrint drop.name reason]
    let e2 : List Effect :=
      if g.com_dedicated ≠ 0 ∧ drop.demoRecording then [.stopServerDemo] else []
    let e3 : List Effect := [.gameClientDisconnect, .sendDisconnect reason]
    let e4 : List Effect := if isBot then [.botFree] else []
    let cl' := { drop with state := if isBot then .free else .zombie, userinfo := [] }
    let noneConnected := w.others.all (fun c => c.state.toNat < ClientState.connected.toNat)
    let e5 : List Effect := if noneConnected then [.heartbeat] else []
    (⟨cl', challenges', w.others⟩, e1 ++ e2 ++ e3 ++ e4 ++ e5)

/-- `SV_SendClientGameState`: put the client into `CS_PRIMED`, reset the pure
flags, record the gamestate cookie, and emit the gamestate message (whose
configstring/baseline payload is produced by external `MSG_*` writers and is
summarised here by the two acknowledge numbers it opens with). -/
def SV_SendClientGameState (_g : Globals) (w : World) : World × List Effect :=
  let cl := { w.cl with state := .primed, pureAuthentic := 0, gotCP := false,
                        gamestateMessageNum := w.cl.netchanOutgoingSequence }
  ({ w with cl := cl }, [.gamestateSent w.cl.lastClientCommand w.cl.reliableSequence])

/-- `SV_ClientEnterWorld`: transition to `CS_ACTIVE` and begin the game. -/
def SV_ClientEnterWorld (g : Globals) (w : World) (cmd : Usercmd) : World × List Effect :=
  let cl1 := { w.cl with state := .active }
  let e1 : List Effect :=
    if g.sv_autoRecordDemo ≠ 0 ∧ ¬ cl1.remoteAddress.isBot then [.startRecord] else []
  let cl2 := { cl1 with deltaMessage := -1, lastSnapshotTime := 0, lastUsercmd := cmd }
  ({ w with cl := cl2 }, e1 ++ [.updateConfigstrings, .gameClientBegin])

/-- `SV_ClientThink`: record the usercmd and invoke the game think hook
unless the client is no longer active. -/
def SV_ClientThink (w : World) (cmd : Usercmd) : World × List Effect :=
  let cl := { w.cl with lastUsercmd := cmd }
  if cl.state ≠ .active then ({ w with cl := cl }, [])
  else ({ w with cl := cl }, [.gameClientThink cmd.serverTime])

/-- `SV_DoneDownload_f`: no-op when already active, else resend gamestate. -/
def SV_DoneDownload_f (g : Globals) (w : World) : World × List Effect :=
  if w.cl.state = .active then (w, [])
  else SV_SendClientGameState g w

/-- `SV_Disconnect_f`. -/
def SV_Disconnect_f (g : Globals) (w : World) : World × List Effect :=
  SV_DropClient g w "disconnected"

/-- `SV_ResetPureClient_f`. -/
def SV_ResetPureClient_f (w : World) : World × List Effect :=
  ({ w with cl := { w.cl with pureAuthentic := 0, gotCP := false } }, [])

/-- The checksum list supplied by the client in a `cp` command: the `atoi` of
every argument after the `@` delimiter, except the last (the folded value). -/
def clientChksOf (args : List String) : List Int := ((args.drop 5).map atoi).dropLast

/-- The folded value supplied by the client: the last argument of `cp`. -/
def foldedOf (args : List String) : Int := ((args.drop 5).map atoi).getLastD 0

/-- The server-side fold: `checksumFeed` XORed with every client checksum and
finally with the number of checksums. -/
def pureFold (g : Globals) (chks : List Int) : Int :=
  xor32 (chks.foldl xor32 g.checksumFeed) (Int.ofNat chks.length)

/-- The validation ladder of `SV_VerifyPaks_f` (the `while (bGood)` block):
whether the `cp` argument vector passes every check. -/
def verifyPaksGood (g : Globals) (args : List String) : Bool :=
  let nClientPaks := args.length
  if ¬ g.fsFilesInPak then false
  else if nClientPaks < 6 then false
  else
    let a2 := argvD args 2
    if firstChar a2 = '@' ∨ atoi a2 ≠ g.cgameChecksum then false
    else
      let a3 := argvD args 3
      if firstChar a3 = '@' ∨ atoi a3 ≠ g.uiChecksum then false
      else if firstChar (argvD args 4) ≠ '@' then false
      else
        let chks := clientChksOf args
        if ¬ chks.Nodup then false
        else
          let srv := g.serverPaks.take 1024
          if ¬ chks.all (fun c => srv.contains c) then false
          else pureFold g chks == foldedOf args

/-- The drop reason used by `SV_VerifyPaks_f` on validation failure. -/
def unpureDropReason : String := "Unpure client detected. Invalid .PK3 files referenced!"

/-- `SV_VerifyPaks_f` (`cp` command): when the server is pure, silently ignore
`cp` from a pre-restart epoch, otherwise validate; on success mark the client
pure-authentic, on failure force `CS_ACTIVE`, send one snapshot and drop. -/
def SV_VerifyPaks_f (g : Globals) (w : World) (args : List String) : World × List Effect :=
  if g.sv_pure ≠ 0 then
    if atoi (argvD args 1) < g.checksumFeedServerId then (w, [])
    else if verifyPaksGood g args then
      ({ w with cl := { w.cl with gotCP := true, pureAuthentic := 1 } }, [])
    else
      let cl' := { w.cl with gotCP := true, pureAuthentic := 0,
                             lastSnapshotTime := 0, state := .active }
      let r := SV_DropClient g { w with cl := cl' } unpureDropReason
      (r.1, Effect.sendSnapshot cl'.state :: r.2)
  else (w, [])

/-- The `handicap` normalisation step of `SV_UserinfoChanged`. -/
def handicapAdjust (u : Userinfo) : Userinfo :=
  let hval := infoValue u "handicap"
  if hval.length ≠ 0 ∧ (atoi hval ≤ 0 ∨ atoi hval > 100 ∨ hval.length > 4) then
    infoSet u "handicap" "100"
  else u

/-- The clamped `snaps` value of `SV_UserinfoChanged`: parsed (defaulting to
`sv_fps` when absent) and range-checked into `[1, sv_fps]`. -/
def snapsOf (g : Globals) (u : Userinfo) : Int :=
  let sval := infoValue u "snaps"
  let i0 := if sval.length ≠ 0 then atoi sval else g.sv_fps
  if i0 < 1 then 1 else if i0 > g.sv_fps then g.sv_fps else i0

/-- The values `SV_UserinfoChanged` extracts from the userinfo blob before
writing them into the client: name, rate, the handicap-normalised blob, the
snapshot interval pair, the canonical `ip` string and the overflow flag of
the final `ip` re-install. -/
structure UserinfoComp where
  name : String
  rate : Int
  u1 : Userinfo
  lastSnap : Int
  snapMsec : Int
  ip : String
  overflow : Bool

/-- The scalar computations of `SV_UserinfoChanged`. -/
def userinfoComputed (g : Globals) (cl : Client) : UserinfoComp :=
  let name := (infoValue cl.userinfo "name").take 31
  let maxRate : Int := 100000
  let rate :=
    if Sys_IsLANAddress cl.remoteAddress ∧ g.com_dedicated ≠ 2 ∧ g.sv_lanForceRate = 1 then
      maxRate
    else
      let val := infoValue cl.userinfo "rate"
      if val.length ≠ 0 then
        let i := atoi val
        if i < 1000 then 1000 else if i > maxRate then maxRate else i
      else 5000
  let u1 := handicapAdjust cl.userinfo
  let i1 := snapsOf g u1
  let msec := 1000 / i1
  let snapPair :=
    if msec ≠ cl.snapshotMsec then ((0 : Int), msec)
    else (cl.lastSnapshotTime, cl.snapshotMsec)
  let ip :=
    if NET_IsLocalAddress cl.remoteAddress then "localhost"
    else adrToString cl.remoteAddress
  let ipval := infoValue u1 "ip"
  let len : Int :=
    if ipval.length ≠ 0 then (ip.length : Int) - ipval.length + infoStrLen u1
    else (ip.length : Int) + 4 + infoStrLen u1
  ⟨name, rate, u1, snapPair.1, snapPair.2, ip, decide (len ≥ (MAX_INFO_STRING : Int))⟩

/-- Write the computed userinfo values into the client record. -/
def userinfoApply (cl : Client) (t : UserinfoComp) : Client :=
  { cl with name := t.name, rate := t.rate, userinfo := t.u1,
            snapshotMsec := t.snapMsec, lastSnapshotTime := t.lastSnap }

/-- Final step of `SV_UserinfoChanged`: install the `ip` key unless the
userinfo would overflow (in which case the caller drops the client). -/
def userinfoCoreAux (cl : Client) (t : UserinfoComp) : Client × Bool :=
  if t.overflow then (userinfoApply cl t, true)
  else ({ userinfoApply cl t with userinfo := infoSet t.u1 "ip" t.ip }, false)

/-- The pure part of `SV_UserinfoChanged`: the updated client, plus a flag
telling whether the final `ip` re-install overflowed the userinfo cap. -/
def userinfoChangedCore (g : Globals) (cl : Client) : Client × Bool :=
  userinfoCoreAux cl (userinfoComputed g cl)

/-- `SV_UserinfoChanged`: pull name, rate, handicap, snaps out of the
userinfo, maintain the `ip` key, dropping the client if the userinfo string
would overflow. -/
def SV_UserinfoChanged (g : Globals) (w : World) : World × List Effect :=
  let r := userinfoChangedCore g w.cl
  if r.2 then SV_DropClient g { w with cl := r.1 } "userinfo string length exceeded"
  else ({ w with cl := r.1 }, [])

/-- Modelled from the spec: parse a flat `\\key\\value` userinfo string into
the association-list representation (the string form is handled by external
`Info_*` functions). -/
def pairUp : List String → Userinfo
  | k :: v :: rest => (k, v) :: pairUp rest
  | _ => []

/-- Modelled from the spec: split a userinfo blob into key/value pairs. -/
def infoParse (s : String) : Userinfo :=
  let parts := s.splitOn "\\"
  pairUp (if parts.headD "" = "" then parts.drop 1 else parts)

/-- `SV_UpdateUserinfo_f` (`userinfo` command): stage into a buffer when
flood-delayed, otherwise install the new userinfo and notify. -/
def SV_UpdateUserinfo_f (g : Globals) (w : World) (args : List String) : World × List Effect :=
  if g.sv_floodProtect ≠ 0 ∧ ClientState.active.toNat ≤ w.cl.state.toNat ∧
      g.svsTime < w.cl.nextReliableUserTime then
    ({ w with cl := { w.cl with userinfobuffer := argvD args 1 } },
     [.printToClient "^7Command ^1delayed^7 due to sv_floodprotect."])
  else
    let cl1 := { w.cl with userinfobuffer := "", nextReliableUserTime := g.svsTime + 5000,
                           userinfo := infoParse (argvD args 1) }
    let r := SV_UserinfoChanged g { w with cl := cl1 }
    (r.1, r.2 ++ [.gameClientUserinfoChanged])

/-- Per-character budget scan of one chat argument (inner loop of the
`exploitDetected` check of `SV_ExecuteClientCommand`): counts each character,
charging an extra fixed budget per dollar variable; `none` means the budget
was exceeded. -/
def scanChars (maxlen : Nat) : List Char → Nat → Nat → Option (Nat × Nat)
  | [], cc, dc => some (cc, dc)
  | c :: rest, cc, dc =>
    let cc1 := cc + 1
    if cc1 > maxlen then none
    else if c = '$' then
      let dc1 := dc + 1
      if dc1 > MAX_DOLLAR_VARS then none
      else
        let cc2 := cc1 + STRLEN_INCREMENT_PER_DOLLAR_VAR
        if cc2 > maxlen then none else scanChars maxlen rest cc2 dc1
    else scanChars maxlen rest cc1 dc

/-- Outer loop of the chat budget scan, over the arguments from the last one
down to argument 1, charging one separator character between arguments. -/
def scanArgsRev (maxlen : Nat) : List String → Nat → Nat → Bool
  | [], _, _ => false
  | a :: rest, cc, dc =>
    match scanChars maxlen a.toList cc dc with
    | none => true
    | some p =>
      match rest with
      | [] => false
      | _ :: _ =>
        let cc2 := p.1 + 1
        if cc2 > maxlen then true else scanArgsRev maxlen rest cc2 p.2

/-- The `exploitDetected` computation of `SV_ExecuteClientCommand`. -/
def exploitDetected (maxlen : Nat) (args : List String) : Bool :=
  scanArgsRev maxlen (args.drop 1).reverse 0 0

/-- Modelled from the spec: `Cmd_Args_Sanitize` (external) replaces
line breaks and semicolons in the arguments past the command name. -/
def sanitizeChar (c : Char) : Char :=
  if c = '\n' ∨ c = '\r' ∨ c = ';' then ' ' else c

/-- Modelled from the spec: sanitize every argument past the command name. -/
def sanitizeArgs : List String → List String
  | [] => []
  | a0 :: rest => a0 :: rest.map (fun s => String.mk (s.toList.map sanitizeChar))

/-- Whether the command name is one of the built-in server commands of the
`ucmds` dispatch table (`voip` is compiled out). -/
def isBuiltin (s : String) : Bool :=
  s == "userinfo" || s == "disconnect" || s == "cp" || s == "vdr" || s == "donedl"

/-- Dispatch through the `ucmds` table; identity for unknown commands. -/
def runBuiltin (g : Globals) (w : World) (args : List String) : World × List Effect :=
  let c := argvD args 0
  if c == "userinfo" then SV_UpdateUserinfo_f g w args
  else if c == "disconnect" then SV_Disconnect_f g w
  else if c == "cp" then SV_VerifyPaks_f g w args
  else if c == "vdr" then SV_ResetPureClient_f w
  else if c == "donedl" then SV_DoneDownload_f g w
  else (w, [])

/-- The user-facing message printed when a chat command is dropped. -/
def chatDroppedMsg : String := "Chat dropped due to message length constraints.\n"

/-- The chat-length guard and game-module forwarding of
`SV_ExecuteClientCommand`: cap `say`/`say_team`/`tell`/`ut_radio` argument
length, then forward to the game module. -/
def chatGuard (args : List String) : List Effect :=
  let argv0 := argvD args 0
  let maxlen : Option Nat :=
    if qStricmpEq "say" argv0 || qStricmpEq "say_team" argv0 then some MAX_SAY_STRLEN
    else if qStricmpEq "tell" argv0 then some MAX_SAY_STRLEN
    else if qStricmpEq "ut_radio" argv0 then some (MAX_RADIO_STRLEN + 4)
    else none
  match maxlen with
  | some m =>
    if exploitDetected m args then [.printToClient chatDroppedMsg]
    else [.gameClientCommand]
  | none => [.gameClientCommand]

/-- The game-forwarding tail of `SV_ExecuteClientCommand` for non-built-in
commands: the `team` switch shortcut, then the chat guard, then the game
hook. -/
def gameCommandEffects (g : Globals) (args : List String) : List Effect :=
  if qStricmpEq "team" (argvD args 0) then
    if g.sv_teamSwitch ≠ 0 then [.forceteam]
    else if g.g_matchmode = 1 then [.forceteam]
    else chatGuard args
  else chatGuard args

/-- `SV_ExecuteClientCommand`: dispatch a reliable command string (modelled
pre-tokenized) through the built-in table and, when permitted, to the game
module. The leading `execClientCommand` effect records the dispatch itself. -/
def SV_ExecuteClientCommand (g : Globals) (w : World) (args : List String)
    (clientOK : Bool) : World × List Effect :=
  let bProcessed := isBuiltin (argvD args 0)
  let r := runBuiltin g w args
  let e2 : List Effect :=
    if clientOK ∧ ¬ bProcessed ∧ g.svStateGame ∧
        (r.1.cl.state = .active ∨ r.1.cl.state = .primed) then
      gameCommandEffects g (sanitizeArgs args)
    else []
  (r.1, Effect.execClientCommand args :: (r.2 ++ e2))

/-- Result of `SV_ClientCommand`: the world, the effect trace, the computed
flood flag (`clientOk`), and the C return value (`qfalse` aborts the packet). -/
structure CCResult where
  world : World
  effects : List Effect
  clientOk : Bool
  retval : Bool

/-- `SV_ClientCommand`: sequence a single inbound reliable command —
duplicate suppression, lost-command drop, flood accounting, execution. -/
def SV_ClientCommand (g : Globals) (w : World) (seq : Int) (args : List String) : CCResult :=
  if w.cl.lastClientCommand ≥ seq then ⟨w, [], true, true⟩
  else if seq > w.cl.lastClientCommand + 1 then
    let r := SV_DropClient g w "Lost reliable commands"
    ⟨r.1, r.2, true, false⟩
  else
    let fp :=
      if g.com_cl_running = 0 ∧ ClientState.active.toNat ≤ w.cl.state.toNat ∧
          g.sv_floodProtect ≠ 0 then
        if g.svsTime < w.cl.nextReliableTime then
          let n := w.cl.numcmds + 1
          ({ w.cl with numcmds := n }, if n > g.sv_floodProtect then false else true)
        else ({ w.cl with numcmds := 1 }, true)
      else (w.cl, true)
    let cl2 := { fp.1 with nextReliableTime := g.svsTime + 1000 }
    let r := SV_ExecuteClientCommand g { w with cl := cl2 } args fp.2
    ⟨{ r.1 with cl := { r.1.cl with lastClientCommand := seq,
                                    lastClientCommandString := args } },
      r.2, fp.2, true⟩

/-- The final usercmd loop of `SV_UserMove`: skip cmds from before a map
restart (newer than the batch's last cmd) and old or duplicate cmds, execute
the rest. -/
def runCmds (lastTime : Int) : World → List Usercmd → World × List Effect
  | w, [] => (w, [])
  | w, c :: rest =>
    if lastTime < c.serverTime then runCmds lastTime w rest
    else if c.serverTime ≤ w.cl.lastUsercmd.serverTime then runCmds lastTime w rest
    else
      let r := SV_ClientThink w c
      let r2 := runCmds lastTime r.1 rest
      (r2.1, r.2 ++ r2.2)

/-- `SV_UserMove`: process a decoded usercmd batch. The delta decoding key
and the per-frame ping bookkeeping involve only external `MSG_*` and clock
functions and are abstracted: the input is the decoded batch. -/
def SV_UserMove (g : Globals) (w : World) (delta : Bool) (cmds : List Usercmd) :
    World × List Effect :=
  let cl0 :=
    if delta then { w.cl with deltaMessage := w.cl.messageAcknowledge }
    else { w.cl with deltaMessage := -1 }
  let w := { w with cl := cl0 }
  if cmds.length < 1 then (w, [])
  else if cmds.length > MAX_PACKET_USERCMDS then (w, [])
  else if g.sv_pure ≠ 0 ∧ w.cl.pureAuthentic = 0 ∧ ¬ w.cl.gotCP then
    if w.cl.state = .active then SV_SendClientGameState g w else (w, [])
  else
    let r1 := if w.cl.state = .primed then SV_ClientEnterWorld g w (cmds.headD default)
              else (w, [])
    let w1 := r1.1
    if g.sv_pure ≠ 0 ∧ w1.cl.pureAuthentic = 0 then
      let r2 := SV_DropClient g w1 "Cannot validate pure client!"
      (r2.1, r1.2 ++ r2.2)
    else if w1.cl.state ≠ .active then
      ({ w1 with cl := { w1.cl with deltaMessage := -1 } }, r1.2)
    else
      let r2 := runCmds (cmds.getLastD default).serverTime w1 cmds
      (r2.1, r1.2 ++ r2.2)

/-- An inbound in-band client message, as decoded by the external `MSG_*`
readers: the header numbers, the `clc_clientCommand` blocks in order, and an
optional `clc_move`/`clc_moveNoDelta` batch (delta flag, decoded cmds). -/
structure ClientMessage where
  serverId : Int
  messageAcknowledge : Int
  reliableAcknowledge : Int
  commands : List (Int × List String)
  move : Option (Bool × List Usercmd)

/-- The `clc_clientCommand` reading loop of `SV_ExecuteClientMessage`; the
`Bool` tells whether processing continues to the usercmd part (false after a
flood abort or a disconnect). -/
def runClientCommands (g : Globals) : World → List (Int × List String) →
    World × List Effect × Bool
  | w, [] => (w, [], true)
  | w, (seq, args) :: rest =>
    let r := SV_ClientCommand g w seq args
    if r.retval = false then (r.world, r.effects, false)
    else if r.world.cl.state = .zombie then (r.world, r.effects, false)
    else
      let r2 := runClientCommands g r.world rest
      (r2.1, r.effects ++ r2.2.1, r2.2.2)

/-- `SV_ExecuteClientMessage`: parse one client packet — header acknowledge
handling, stale-serverId handling, reliable commands, then the usercmds. -/
def SV_ExecuteClientMessage (g : Globals) (w : World) (m : ClientMessage) :
    World × List Effect :=
  let cl := { w.cl with messageAcknowledge := m.messageAcknowledge }
  if m.messageAcknowledge < 0 then ({ w with cl := cl }, [])
  else
    let cl := { cl with reliableAcknowledge := m.reliableAcknowledge }
    if m.reliableAcknowledge < cl.reliableSequence - MAX_RELIABLE_COMMANDS then
      ({ w with cl := { cl with reliableAcknowledge := cl.reliableSequence } }, [])
    else
      let w := { w with cl := cl }
      if m.serverId ≠ g.svServerId then
        if g.svRestartedServerId ≤ m.serverId ∧ m.serverId < g.svServerId then (w, [])
        else if w.cl.state ≠ .active ∧ w.cl.gamestateMessageNum < m.messageAcknowledge then
          SV_SendClientGameState g w
        else (w, [])
      else
        let w :=
          if w.cl.oldServerTime ≠ 0 then { w with cl := { w.cl with oldServerTime := 0 } }
          else w
        let r := runClientCommands g w m.commands
        if r.2.2 = false then (r.1, r.2.1)
        else
          match m.move with
          | some md =>
            let r2 := SV_UserMove g r.1 md.1 md.2
            (r2.1, r.2.1 ++ r2.2)
          | none => (r.1, r.2.1)

/-- The server as `SV_DirectConnect` sees it: the client array (`svs.clients`,
index = slot id, length = `sv_maxclients`) and the challenge table. -/
structure SServer where
  clients : List Client
  challenges : List Challenge

/-- Structured outcome of a `connect` attempt, one constructor per exit path
of `SV_DirectConnect`. -/
inductive ConnectOutcome where
  | banned
  | badProtocol
  | reconnectTooSoon
  | userinfoOverflow
  | noOrBadChallenge
  | challengeRefused
  | tooManyFromIp
  | pingTooLow
  | pingTooHigh
  | serverFull
  | fatalFullLocal
  | gameDenied (s : String)
  | accepted (slot : Nat)
deriving DecidableEq, Repr

/-- The exception pass of `SV_IsBanned` (a ban entry is modelled by its
network part and its exception flag; mask matching is external). -/
def isBanException (g : Globals) (adr : NetAdr) : Bool :=
  g.bans.any (fun b => b.2 && b.1 == adr.base)

/-- `SV_IsBanned`: exceptions are evaluated first and short-circuit a ban. -/
def SV_IsBanned (g : Globals) (adr : NetAdr) : Bool :=
  if isBanException g adr then false
  else g.bans.any (fun b => !b.2 && b.1 == adr.base)

/-- The slot scan shared by the quick-reject and the reuse pass of
`SV_DirectConnect`: first non-free slot with the same base address and the
same qport or the same source port. -/
def findReuseIdx (clients : List Client) (adr : NetAdr) (qport : Int) : Option Nat :=
  clients.findIdx? (fun cl =>
    !(decide (cl.state = ClientState.free)) && NET_CompareBaseAdr adr cl.remoteAddress &&
      ((cl.qport == qport) || (adr.port == cl.remoteAddress.port)))

/-- The quick-reject pass of `SV_DirectConnect`: an existing peer slot still
inside the reconnect cooldown causes a silent drop of the request. -/
def quickRejectCooling (g : Globals) (clients : List Client) (adr : NetAdr) (qport : Int) :
    Bool :=
  match findReuseIdx clients adr qport with
  | some i =>
    let cl := clients.getD i zeroClient
    decide (g.svsTime - cl.lastConnectTime < g.sv_reconnectlimit * 1000)
  | none => false

/-- Result of the challenge-validation section of `SV_DirectConnect`. -/
inductive ChalResult where
  | reject (out : ConnectOutcome) (challenges : List Challenge) (effs : List Effect)
  | pass (challenges : List Challenge)

/-- The challenge-validation section of `SV_DirectConnect` (lines guarded by
`if (!NET_IsLocalAddress(from))`): local (loopback) clients skip it entirely;
others must present a challenge matching a table record for their address,
then pass the refusal flag, the per-IP cap and (for non-LAN addresses only)
the ping policy. -/
def directConnectChallengeStage (g : Globals) (sv : SServer) (adr : NetAdr)
    (challenge : Int) : ChalResult :=
  if NET_IsLocalAddress adr then .pass sv.challenges
  else
    match sv.challenges.findIdx? (fun c => NET_CompareAdr adr c.adr && (c.challenge == challenge)) with
    | none =>
      .reject .noOrBadChallenge sv.challenges
        [.oobPrint "No or bad challenge for your address."]
    | some i =>
      let ch := sv.challenges.getD i emptyChallenge
      if ch.wasrefused then .reject .challengeRefused sv.challenges []
      else
        let ping := g.svsTime - ch.pingTime
        if ¬ Sys_IsLANAddress adr then
          let numIpClients :=
            (sv.clients.filter (fun cl =>
              !(decide (cl.state = ClientState.free)) &&
                NET_CompareBaseAdr adr cl.remoteAddress)).length
          if g.sv_clientsPerIp ≠ 0 ∧ g.sv_clientsPerIp ≤ (numIpClients : Int) then
            .reject .tooManyFromIp sv.challenges
              [.oobPrint "Too many connections from the same IP"]
          else if g.sv_minPing ≠ 0 ∧ ping < g.sv_minPing then
            .reject .pingTooLow (sv.challenges.set i { ch with wasrefused := true })
              [.oobPrint "Server is for high pings only"]
          else if g.sv_maxPing ≠ 0 ∧ g.sv_maxPing < ping then
            .reject .pingTooHigh (sv.challenges.set i { ch with wasrefused := true })
              [.oobPrint "Server is for low pings only"]
          else .pass (sv.challenges.set i { ch with connected := true })
        else .pass (sv.challenges.set i { ch with connected := true })

/-- First free slot at or after `start` (`for (i = startIndex; ...)`). -/
def freeSlotFrom (clients : List Client) (start : Nat) : Option Nat :=
  match (clients.drop start).findIdx? (fun cl => decide (cl.state = ClientState.free)) with
  | some j => some (start + j)
  | none => none

/-- Number of bot slots at or after `start`. -/
def botsFrom (clients : List Client) (start : Nat) : Nat :=
  ((clients.drop start).filter (fun cl => cl.remoteAddress.isBot)).length

/-- The freshly initialized client slot written at `gotnewcl`:
`*newcl = temp` (all zero), then challenge, network channel and userinfo. -/
def initClientSlot (adr : NetAdr) (qport challenge : Int) (ui : Userinfo) : Client :=
  { zeroClient with challenge := challenge, remoteAddress := adr, qport := qport,
                    userinfo := ui }

/-- `SV_DropClient` applied to slot `i` of the server array (the remaining
slots act as the `others` of the heartbeat scan). -/
def dropAt (g : Globals) (sv : SServer) (i : Nat) (reason : String) :
    SServer × List Effect :=
  let w : World := ⟨sv.clients.getD i zeroClient, sv.challenges, sv.clients.eraseIdx i⟩
  let r := SV_DropClient g w reason
  (⟨sv.clients.set i r.1.cl, r.1.challenges⟩, r.2)

/-- The tail of `SV_DirectConnect` from label `gotnewcl`: initialize the slot,
let the game module accept or reject, run `SV_UserinfoChanged`, mark the slot
`CS_CONNECTED`, reply `connectResponse`, and heartbeat on the population
thresholds. -/
def finishConnect (g : Globals) (sv : SServer) (i : Nat) (adr : NetAdr) (ui : Userinfo)
    (challenge qport : Int) (preEffs : List Effect) :
    SServer × ConnectOutcome × List Effect :=
  let slot0 := initClientSlot adr qport challenge ui
  match g.gameDeniedReason with
  | some str =>
    (⟨sv.clients.set i slot0, sv.challenges⟩, .gameDenied str, preEffs ++ [.oobPrint str])
  | none =>
    let rcore := userinfoChangedCore g slot0
    let afterUser : SServer × List Effect :=
      if rcore.2 then
        dropAt g ⟨sv.clients.set i rcore.1, sv.challenges⟩ i "userinfo string length exceeded"
      else (⟨sv.clients.set i rcore.1, sv.challenges⟩, [])
    let sv1 := afterUser.1
    let cl1 := sv1.clients.getD i zeroClient
    let cl2 := { cl1 with state := .connected, lastSnapshotTime := 0,
                          lastPacketTime := g.svsTime, lastConnectTime := g.svsTime,
                          numcmds := 0, gamestateMessageNum := -1 }
    let clients2 := sv1.clients.set i cl2
    let count :=
      (clients2.filter (fun cl => ClientState.connected.toNat ≤ cl.state.toNat)).length
    let hb : List Effect := if count = 1 ∨ count = clients2.length then [.heartbeat] else []
    (⟨clients2, sv1.challenges⟩, .accepted i,
      preEffs ++ afterUser.2 ++ [.connectResponse challenge] ++ hb)

/-- The slot-selection section of `SV_DirectConnect`: reuse an existing peer
slot, else take the first free slot past the private-password gate, else
handle the full-server cases. -/
def connectAllocStage (g : Globals) (clients : List Client) (challenges : List Challenge)
    (adr : NetAdr) (ui : Userinfo) (challenge qport : Int) :
    SServer × ConnectOutcome × List Effect :=
  match findReuseIdx clients adr qport with
  | some i => finishConnect g ⟨clients, challenges⟩ i adr ui challenge qport []
  | none =>
    let pw := infoValue ui "password"
    let startIndex : Nat :=
      if pw ≠ "" ∧ pw = g.sv_privatePassword then 0 else g.sv_privateClients.toNat
    match freeSlotFrom clients startIndex with
    | some i => finishConnect g ⟨clients, challenges⟩ i adr ui challenge qport []
    | none =>
      if NET_IsLocalAddress adr then
        if clients.length - startIndex ≤ botsFrom clients startIndex then
          let r := dropAt g ⟨clients, challenges⟩ (clients.length - 1) "only bots on server"
          finishConnect g r.1 (clients.length - 1) adr ui challenge qport r.2
        else (⟨clients, challenges⟩, .fatalFullLocal, [])
      else (⟨clients, challenges⟩, .serverFull, [.oobPrint "Server is full."])

/-- `SV_DirectConnect`: a `connect` out-of-band command. The userinfo blob is
modelled pre-parsed (`Cmd_Argv(1)` and the `Info_*` string functions are
external). -/
def SV_DirectConnect (g : Globals) (sv : SServer) (adr : NetAdr) (ui0 : Userinfo) :
    SServer × ConnectOutcome × List Effect :=
  if SV_IsBanned g adr then
    (sv, .banned, [.oobPrint "You are banned from this server."])
  else if atoi (infoValue ui0 "protocol") ≠ g.com_protocol then
    (sv, .badProtocol,
     [.oobPrint ("Server uses protocol version " ++ toString g.com_protocol ++
       " (yours is " ++ toString (atoi (infoValue ui0 "protocol")) ++ ").")])
  else
    let challenge := atoi (infoValue ui0 "challenge")
    let qport := atoi (infoValue ui0 "qport")
    if quickRejectCooling g sv.clients adr qport then (sv, .reconnectTooSoon, [])
    else
      let ip := if NET_IsLocalAddress adr then "localhost" else adrToString adr
      if MAX_INFO_STRING ≤ ip.length + infoStrLen ui0 + 4 then
        (sv, .userinfoOverflow,
         [.oobPrint "Userinfo string length exceeded.  Try removing setu cvars from your config."])
      else
        let ui := infoSet ui0 "ip" ip
        match directConnectChallengeStage g sv adr challenge with
        | .reject out chals effs => (⟨sv.clients, chals⟩, out, effs)
        | .pass chals => connectAllocStage g sv.clients chals adr ui challenge qport

/-! Concrete fixtures used by witnesses and counterexamples. -/

/-- A representative configuration for concrete runs. -/
def gTest : Globals :=
  { svsTime := 10000, svServerId := 7, svRestartedServerId := 7, checksumFeed := 0,
    checksumFeedServerId := 0, svStateGame := true, sv_floodProtect := 10,
    sv_pure := 1, sv_fps := 20, sv_lanForceRate := 1, sv_autoRecordDemo := 0,
    sv_teamSwitch := 0, g_matchmode := 0, sv_reconnectlimit := 5, sv_minPing := 0,
    sv_maxPing := 0, sv_clientsPerIp := 3, sv_privateClients := 0,
    sv_privatePassword := "", com_cl_running := 0, com_dedicated := 1,
    com_protocol := 68, fsFilesInPak := true, cgameChecksum := 7, uiChecksum := 9,
    serverPaks := [3, 5], bans := [], gameDeniedReason := none }

/-- A zombie client slot (for the drop no-op runs). -/
def clZombie : Client := { zeroClient with state := .zombie, name := "z" }

/-- A primed client slot. -/
def clPrimed : Client := { zeroClient with state := .primed, pureAuthentic := 1 }

/-! Helper lemmas about the shape of the handler results. -/

/-- `SV_ClientThink` only rewrites `lastUsercmd`. -/
theorem clientThink_world (w : World) (c : Usercmd) :
    (SV_ClientThink w c).1 = { w with cl := { w.cl with lastUsercmd := c } } := by
  simp only [SV_ClientThink]
  split <;> rfl

/-- The usercmd loop only rewrites `lastUsercmd`. -/
theorem runCmds_world (lastTime : Int) (w : World) (cs : List Usercmd) :
    ∃ u, (runCmds lastTime w cs).1 = { w with cl := { w.cl with lastUsercmd := u } } := by
  induction cs generalizing w with
  | nil => exact ⟨w.cl.lastUsercmd, rfl⟩
  | cons c rest ih =>
    unfold runCmds
    by_cases h1 : lastTime < c.serverTime
    · simpa [h1] using ih w
    · by_cases h2 : c.serverTime ≤ w.cl.lastUsercmd.serverTime
      · simpa [h1, h2] using ih w
      · obtain ⟨u, hu⟩ := ih (SV_ClientThink w c).1
        refine ⟨u, ?_⟩
        simp only [h1, h2, if_false, if_neg h1, if_neg h2]
        rw [hu, clientThink_world]

/-- The usercmd loop does not change the client's connection state. -/
theorem runCmds_state (t : Int) (w : World) (cs : List Usercmd) :
    (runCmds t w cs).1.cl.state = w.cl.state := by
  obtain ⟨u, hu⟩ := runCmds_world t w cs
  rw [hu]

/-- C10: Dropping a client whose state is already ZOMBIE (and whose
demo-recording flag is false) is a no-op: `SV_DropClient` returns the world
unchanged — no field of the slot changes, no challenge record is cleared —
and emits no effects (no messages, no game-module `client_disconnect`);
consequently dropping a non-bot, non-recording client twice does no more
than dropping it once. -/
theorem dropClient_zombie_noop (g : Globals) (w : World) (reason : String)
    (hz : w.cl.state = ClientState.zombie) (hd : w.cl.demoRecording = false) :
    SV_DropClient g w reason = (w, []) ∧
    (∀ (w2 : World) (r2 : String), w2.cl.remoteAddress.isBot = false →
      w2.cl.demoRecording = false →
      SV_DropClient g (SV_DropClient g w2 r2).1 r2 = ((SV_DropClient g w2 r2).1, [])) := by
  constructor
  · simp [SV_DropClient, hz, hd]
  · intro w2 r2 hbot hdemo
    by_cases hzz : w2.cl.state = ClientState.zombie
    · simp [SV_DropClient, hzz, hdemo]
    · simp [SV_DropClient, hzz, hdemo, hbot]

/-- Closed witness for `dropClient_zombie_noop`. -/
theorem dropClient_zombie_noop_witness :
    SV_DropClient gTest ⟨clZombie, [], []⟩ "timed out" = (⟨clZombie, [], []⟩, []) ∧
    (∀ (w2 : World) (r2 : String), w2.cl.remoteAddress.isBot = false →
      w2.cl.demoRecording = false →
      SV_DropClient gTest (SV_DropClient gTest w2 r2).1 r2 =
        ((SV_DropClient gTest w2 r2).1, [])) :=
  dropClient_zombie_noop gTest ⟨clZombie, [], []⟩ "timed out" rfl rfl

/-- C5 counterexample: a `donedl` received by a PRIMED client leaves the
client in state PRIMED (the gamestate is resent), not ACTIVE as claimed. -/
theorem donedl_primed_stays_primed :
    (SV_DoneDownload_f gTest ⟨clPrimed, [], []⟩).1.cl.state = ClientState.primed ∧
    ClientState.primed ≠ ClientState.active :=
  ⟨rfl, by decide⟩

/-- C5 (amended): For every client in state PRIMED, receiving the first
usercmd (with the pure check satisfied) transitions the client to ACTIVE; a
`donedl` received while not ACTIVE resends the gamestate, which leaves the
client in state PRIMED (not ACTIVE); a `donedl` received while already
ACTIVE leaves the client unchanged. -/
theorem primed_transitions (g : Globals) (w : World) (delta : Bool) (cmds : List Usercmd)
    (hp : w.cl.state = ClientState.primed)
    (hn : 1 ≤ cmds.length) (hm : cmds.length ≤ MAX_PACKET_USERCMDS)
    (hpure : g.sv_pure = 0 ∨ w.cl.pureAuthentic ≠ 0) :
    (SV_UserMove g w delta cmds).1.cl.state = ClientState.active ∧
    (∀ w2 : World, w2.cl.state ≠ ClientState.active →
      SV_DoneDownload_f g w2 = SV_SendClientGameState g w2 ∧
      (SV_DoneDownload_f g w2).1.cl.state = ClientState.primed) ∧
    (∀ w2 : World, w2.cl.state = ClientState.active →
      SV_DoneDownload_f g w2 = (w2, [])) := by
  refine ⟨?_, ?_, ?_⟩
  · have h1 : ¬ cmds.length < 1 := by omega
    have h2 : ¬ cmds.length > MAX_PACKET_USERCMDS := by omega
    rcases hpure with h0 | h0 <;> cases delta <;>
      simp [SV_UserMove, hp, h1, h2, h0, SV_ClientEnterWorld, runCmds_state]
  · intro w2 hna
    refine ⟨?_, ?_⟩
    · simp [SV_DoneDownload_f, hna]
    · simp [SV_DoneDownload_f, hna, SV_SendClientGameState]
  · intro w2 ha
    simp [SV_DoneDownload_f, ha]

/-- Closed witness for `primed_transitions`. -/
theorem primed_transitions_witness :
    (SV_UserMove gTest ⟨clPrimed, [], []⟩ false [⟨5⟩]).1.cl.state = ClientState.active ∧
    (∀ w2 : World, w2.cl.state ≠ ClientState.active →
      SV_DoneDownload_f gTest w2 = SV_SendClientGameState gTest w2 ∧
      (SV_DoneDownload_f gTest w2).1.cl.state = ClientState.primed) ∧
    (∀ w2 : World, w2.cl.state = ClientState.active →
      SV_DoneDownload_f gTest w2 = (w2, [])) :=
  primed_transitions gTest ⟨clPrimed, [], []⟩ false [⟨5⟩] rfl (by decide) (by decide)
    (Or.inr (by decide))

/-- Effect classifier used to check command-execution traces: `false` exactly
for the dispatch marker and the game-module command hook. -/
def benignEff : Effect → Bool
  | .execClientCommand _ => false
  | .gameClientCommand => false
  | _ => true

/-- Whether an effect is the command-dispatch marker. -/
def isExecEff : Effect → Bool
  | .execClientCommand _ => true
  | _ => false

/-- Number of command dispatches recorded in a trace. -/
def countExec (l : List Effect) : Nat := l.countP isExecEff

/-- A benign effect is not a dispatch marker. -/
theorem benign_not_exec {e : Effect} (h : benignEff e = true) : isExecEff e = false := by
  cases e <;> simp_all [benignEff, isExecEff]

/-- A trace of benign effects records no dispatch. -/
theorem countExec_eq_zero {l : List Effect} (h : l.all benignEff = true) :
    countExec l = 0 := by
  refine List.countP_eq_zero.mpr ?_
  intro e he
  have hb := (List.all_eq_true.mp h) _ he
  simp [benign_not_exec hb]

/-- A trace of benign effects contains no game-module command call. -/
theorem all_benign_no_gameCmd {l : List Effect} (h : l.all benignEff = true) :
    Effect.gameClientCommand ∉ l := by
  intro hm
  have hb := (List.all_eq_true.mp h) _ hm
  simp [benignEff] at hb

/-- `SV_DropClient` emits only benign effects. -/
theorem benign_drop (g : Globals) (w : World) (reason : String) :
    ((SV_DropClient g w reason).2).all benignEff = true := by
  simp only [SV_DropClient]
  repeat' split
  all_goals simp [benignEff]

/-- `SV_SendClientGameState` emits only benign effects. -/
theorem benign_gamestate (g : Globals) (w : World) :
    ((SV_SendClientGameState g w).2).all benignEff = true := by
  simp [SV_SendClientGameState, benignEff]

/-- `SV_DoneDownload_f` emits only benign effects. -/
theorem benign_donedl (g : Globals) (w : World) :
    ((SV_DoneDownload_f g w).2).all benignEff = true := by
  simp only [SV_DoneDownload_f]
  split
  · rfl
  · exact benign_gamestate g w

/-- `SV_VerifyPaks_f` emits only benign effects. -/
theorem benign_verifyPaks (g : Globals) (w : World) (args : List String) :
    ((SV_VerifyPaks_f g w args).2).all benignEff = true := by
  simp only [SV_VerifyPaks_f]
  repeat' split
  all_goals simp [benignEff, benign_drop]

/-- `SV_UserinfoChanged` emits only benign effects. -/
theorem benign_userinfoChanged (g : Globals) (w : World) :
    ((SV_UserinfoChanged g w).2).all benignEff = true := by
  simp only [SV_UserinfoChanged]
  split
  · exact benign_drop g _ _
  · rfl

/-- `SV_UpdateUserinfo_f` emits only benign effects. -/
theorem benign_updateUserinfo (g : Globals) (w : World) (args : List String) :
    ((SV_UpdateUserinfo_f g w args).2).all benignEff = true := by
  simp only [SV_UpdateUserinfo_f]
  split
  · rfl
  · simp [benignEff, benign_userinfoChanged]

/-- The built-in dispatch emits only benign effects. -/
theorem benign_runBuiltin (g : Globals) (w : World) (args : List String) :
    ((runBuiltin g w args).2).all benignEff = true := by
  simp only [runBuiltin]
  repeat' split
  · exact benign_updateUserinfo g w args
  · exact benign_drop g w "disconnected"
  · exact benign_verifyPaks g w args
  · rfl
  · exact benign_donedl g w
  · rfl

/-- Traces with no dispatch marker count zero dispatches. -/
theorem countExec_eq_zero_of_noExec {l : List Effect}
    (h : ∀ e ∈ l, isExecEff e = false) : countExec l = 0 := by
  refine List.countP_eq_zero.mpr ?_
  intro e he
  simp [h e he]

/-- The chat guard/game forwarding effects carry no dispatch marker. -/
theorem noExec_chatGuard (args : List String) :
    ∀ e ∈ chatGuard args, isExecEff e = false := by
  intro e he
  simp only [chatGuard] at he
  repeat' split at he
  all_goals simp only [List.mem_singleton] at he
  all_goals subst he
  all_goals rfl

/-- The game-forwarding tail carries no dispatch marker. -/
theorem noExec_gameCommandEffects (g : Globals) (args : List String) :
    ∀ e ∈ gameCommandEffects g args, isExecEff e = false := by
  intro e he
  simp only [gameCommandEffects] at he
  repeat' split at he
  all_goals first
    | exact noExec_chatGuard args e he
    | (simp only [List.mem_singleton] at he; subst he; rfl)

/-- `SV_ExecuteClientCommand` emits exactly one dispatch marker. -/
theorem execCC_countExec (g : Globals) (w : World) (args : List String) (ok : Bool) :
    countExec (SV_ExecuteClientCommand g w args ok).2 = 1 := by
  simp only [SV_ExecuteClientCommand, countExec, List.countP_cons, List.countP_append]
  have h1 : List.countP isExecEff (runBuiltin g w args).2 = 0 :=
    countExec_eq_zero (benign_runBuiltin g w args)
  have h2 : ∀ c : Prop, ∀ i : Decidable c,
      List.countP isExecEff (if c then gameCommandEffects g (sanitizeArgs args) else []) = 0 := by
    intro c i
    split
    · exact countExec_eq_zero_of_noExec (noExec_gameCommandEffects g (sanitizeArgs args))
    · rfl
  rw [h1, h2]
  rfl

/-- The sequencing-related client fields, which command execution itself
never touches: `numcmds`, `nextReliableTime`, `reliableSequence`,
`reliableAcknowledge`, `lastClientCommand`. -/
def seqView (cl : Client) : Int × Int × Int × Int × Int :=
  (cl.numcmds, cl.nextReliableTime, cl.reliableSequence, cl.reliableAcknowledge,
   cl.lastClientCommand)

/-- Componentwise reading of a `seqView` equality. -/
theorem seqView_fields {a b : Client} (h : seqView a = seqView b) :
    a.numcmds = b.numcmds ∧ a.nextReliableTime = b.nextReliableTime ∧
    a.reliableSequence = b.reliableSequence ∧
    a.reliableAcknowledge = b.reliableAcknowledge ∧
    a.lastClientCommand = b.lastClientCommand := by
  simp only [seqView, Prod.ext_iff] at h
  exact ⟨h.1, h.2.1, h.2.2.1, h.2.2.2.1, h.2.2.2.2⟩

/-- `SV_DropClient` preserves the sequencing fields. -/
theorem seqView_drop (g : Globals) (w : World) (reason : String) :
    seqView (SV_DropClient g w reason).1.cl = seqView w.cl := by
  simp only [SV_DropClient]
  split <;> rfl

/-- `SV_SendClientGameState` preserves the sequencing fields. -/
theorem seqView_gamestate (g : Globals) (w : World) :
    seqView (SV_SendClientGameState g w).1.cl = seqView w.cl := rfl

/-- `SV_DoneDownload_f` preserves the sequencing fields. -/
theorem seqView_donedl (g : Globals) (w : World) :
    seqView (SV_DoneDownload_f g w).1.cl = seqView w.cl := by
  simp only [SV_DoneDownload_f]
  split
  · rfl
  · exact seqView_gamestate g w

/-- `SV_VerifyPaks_f` preserves the sequencing fields. -/
theorem seqView_verifyPaks (g : Globals) (w : World) (args : List String) :
    seqView (SV_VerifyPaks_f g w args).1.cl = seqView w.cl := by
  simp only [SV_VerifyPaks_f]
  repeat' split
  all_goals rfl

theorem seqView_userinfoCoreAux (cl : Client) (t : UserinfoComp) :
    seqView (userinfoCoreAux cl t).1 = seqView cl := by
  unfold userinfoCoreAux
  split <;> rfl

theorem seqView_userinfoCore (g : Globals) (cl : Client) :
    seqView (userinfoChangedCore g cl).1 = seqView cl := by
  unfold userinfoChangedCore
  exact seqView_userinfoCoreAux cl (userinfoComputed g cl)

/-- `SV_UserinfoChanged` preserves the sequencing fields. -/
theorem seqView_userinfoChanged (g : Globals) (w : World) :
    seqView (SV_UserinfoChanged g w).1.cl = seqView w.cl := by
  simp only [SV_UserinfoChanged]
  split
  · rw [seqView_drop]
    exact seqView_userinfoCore g w.cl
  · exact seqView_userinfoCore g w.cl

/-- `SV_UpdateUserinfo_f` preserves the sequencing fields. -/
theorem seqView_updateUserinfo (g : Globals) (w : World) (args : List String) :
    seqView (SV_UpdateUserinfo_f g w args).1.cl = seqView w.cl := by
  simp only [SV_UpdateUserinfo_f]
  split
  · rfl
  · rw [seqView_userinfoChanged]
    rfl

/-- The built-in dispatch preserves the sequencing fields. -/
theorem seqView_runBuiltin (g : Globals) (w : World) (args : List String) :
    seqView (runBuiltin g w args).1.cl = seqView w.cl := by
  simp only [runBuiltin]
  repeat' split
  · exact seqView_updateUserinfo g w args
  · exact seqView_drop g w "disconnected"
  · exact seqView_verifyPaks g w args
  · rfl
  · exact seqView_donedl g w
  · rfl

/-- `SV_ExecuteClientCommand` preserves the sequencing fields. -/
theorem seqView_execCC (g : Globals) (w : World) (args : List String) (ok : Bool) :
    seqView (SV_ExecuteClientCommand g w args ok).1.cl = seqView w.cl := by
  simp only [SV_ExecuteClientCommand]
  exact seqView_runBuiltin g w args

/-- A non-zombie drop sends the `disconnect` message carrying the reason. -/
theorem dropClient_sendDisconnect (g : Globals) (w : World) (reason : String)
    (hz : w.cl.state ≠ ClientState.zombie) :
    Effect.sendDisconnect reason ∈ (SV_DropClient g w reason).2 := by
  simp only [SV_DropClient]
  rw [if_neg hz]
  simp

/-- A non-zombie drop of a human client leaves the slot in `CS_ZOMBIE`. -/
theorem dropClient_state_zombie (g : Globals) (w : World) (reason : String)
    (hz : w.cl.state ≠ ClientState.zombie)
    (hbot : w.cl.remoteAddress.isBot = false) :
    (SV_DropClient g w reason).1.cl.state = ClientState.zombie := by
  simp only [SV_DropClient]
  rw [if_neg hz]
  simp [hbot]

/-- Command execution never changes `numcmds`. -/
theorem execCC_numcmds (g : Globals) (w : World) (args : List String) (ok : Bool) :
    (SV_ExecuteClientCommand g w args ok).1.cl.numcmds = w.cl.numcmds :=
  (seqView_fields (seqView_execCC g w args ok)).1

/-- Command execution never changes `nextReliableTime`. -/
theorem execCC_nextReliableTime (g : Globals) (w : World) (args : List String) (ok : Bool) :
    (SV_ExecuteClientCommand g w args ok).1.cl.nextReliableTime = w.cl.nextReliableTime :=
  (seqView_fields (seqView_execCC g w args ok)).2.1

/-- Command execution never changes `reliableSequence`. -/
theorem execCC_reliableSequence (g : Globals) (w : World) (args : List String) (ok : Bool) :
    (SV_ExecuteClientCommand g w args ok).1.cl.reliableSequence = w.cl.reliableSequence :=
  (seqView_fields (seqView_execCC g w args ok)).2.2.1

/-- Command execution never changes `reliableAcknowledge`. -/
theorem execCC_reliableAcknowledge (g : Globals) (w : World) (args : List String) (ok : Bool) :
    (SV_ExecuteClientCommand g w args ok).1.cl.reliableAcknowledge = w.cl.reliableAcknowledge :=
  (seqView_fields (seqView_execCC g w args ok)).2.2.2.1

/-- C1: For every client and every inbound reliable command with sequence
number `seq`: if `seq ≤ lastClientCommand` the command is ignored and nothing
changes; if `seq > lastClientCommand + 1` the command is not executed and the
client is dropped with reason "Lost reliable commands" (a human slot goes
ZOMBIE and the disconnect message carries that reason); otherwise
(`seq = lastClientCommand + 1`) the command is executed exactly once and
afterwards `lastClientCommand = seq`. -/
theorem clientCommand_sequencing (g : Globals) (w : World) (seq : Int)
    (args : List String) (hz : w.cl.state ≠ ClientState.zombie) :
    (seq ≤ w.cl.lastClientCommand →
      SV_ClientCommand g w seq args = ⟨w, [], true, true⟩) ∧
    (w.cl.lastClientCommand + 1 < seq →
      countExec (SV_ClientCommand g w seq args).effects = 0 ∧
      Effect.sendDisconnect "Lost reliable commands" ∈
        (SV_ClientCommand g w seq args).effects ∧
      (w.cl.remoteAddress.isBot = false →
        (SV_ClientCommand g w seq args).world.cl.state = ClientState.zombie)) ∧
    (seq = w.cl.lastClientCommand + 1 →
      countExec (SV_ClientCommand g w seq args).effects = 1 ∧
      (SV_ClientCommand g w seq args).world.cl.lastClientCommand = seq) := by
  refine ⟨?_, ?_, ?_⟩
  · intro h
    have hge : w.cl.lastClientCommand ≥ seq := h
    simp [SV_ClientCommand, hge]
  · intro h
    have h1 : ¬ w.cl.lastClientCommand ≥ seq := by omega
    have h2 : seq > w.cl.lastClientCommand + 1 := h
    refine ⟨?_, ?_, ?_⟩
    · simp only [SV_ClientCommand, if_neg h1, if_pos h2]
      exact countExec_eq_zero (benign_drop g w _)
    · simp only [SV_ClientCommand, if_neg h1, if_pos h2]
      exact dropClient_sendDisconnect g w _ hz
    · intro hbot
      simp only [SV_ClientCommand, if_neg h1, if_pos h2]
      exact dropClient_state_zombie g w _ hz hbot
  · intro h
    have h1 : ¬ w.cl.lastClientCommand ≥ seq := by omega
    have h2 : ¬ seq > w.cl.lastClientCommand + 1 := by omega
    constructor
    · simp only [SV_ClientCommand, if_neg h1, if_neg h2]
      exact execCC_countExec g _ args _
    · simp only [SV_ClientCommand, if_neg h1, if_neg h2]

/-- A connected (non-zombie) client world for concrete runs. -/
def wConn : World := ⟨{ zeroClient with state := .connected }, [], []⟩

/-- Closed witness for `clientCommand_sequencing`. -/
theorem clientCommand_sequencing_witness :
    ((5 : Int) ≤ wConn.cl.lastClientCommand →
      SV_ClientCommand gTest wConn 5 ["vdr"] = ⟨wConn, [], true, true⟩) ∧
    (wConn.cl.lastClientCommand + 1 < 5 →
      countExec (SV_ClientCommand gTest wConn 5 ["vdr"]).effects = 0 ∧
      Effect.sendDisconnect "Lost reliable commands" ∈
        (SV_ClientCommand gTest wConn 5 ["vdr"]).effects ∧
      (wConn.cl.remoteAddress.isBot = false →
        (SV_ClientCommand gTest wConn 5 ["vdr"]).world.cl.state = ClientState.zombie)) ∧
    ((5 : Int) = wConn.cl.lastClientCommand + 1 →
      countExec (SV_ClientCommand gTest wConn 5 ["vdr"]).effects = 1 ∧
      (SV_ClientCommand gTest wConn 5 ["vdr"]).world.cl.lastClientCommand = 5) :=
  clientCommand_sequencing gTest wConn 5 ["vdr"] (by decide)

/-- An active client world (flood-protection scope) for concrete runs. -/
def wActive : World := ⟨{ zeroClient with state := .active, pureAuthentic := 1 }, [], []⟩

/-- A command marked not-ok never reaches the game module's command hook. -/
theorem execCC_noGameCmd_of_notOk (g : Globals) (w : World) (args : List String) :
    Effect.gameClientCommand ∉ (SV_ExecuteClientCommand g w args false).2 := by
  simp only [SV_ExecuteClientCommand]
  intro hmem
  rcases List.mem_cons.mp hmem with hh | hh
  · exact absurd hh (by simp)
  · rcases List.mem_append.mp hh with hh2 | hh2
    · exact all_benign_no_gameCmd (benign_runBuiltin g w args) hh2
    · simp at hh2

/-- C3: For a client that is at least ACTIVE, with flood protection enabled
(`sv_floodProtect` nonzero) and no embedded client running, a reliable
command that passes the sequence check (`seq = lastClientCommand + 1`) and
arrives while `now < nextReliableTime` increments `numcmds` and is marked
`clientOk = false` exactly when the incremented `numcmds` exceeds
`sv_floodProtect`; one arriving when `now ≥ nextReliableTime` resets
`numcmds` to 1 and is marked ok; in every case `nextReliableTime` becomes
`now + 1000` and the command consumes its sequence number; a command marked
not-ok never reaches the game module's command hook, while built-in commands
are dispatched identically whether or not the command is ok. -/
theorem clientCommand_floodProtect (g : Globals) (w : World) (seq : Int)
    (args : List String)
    (ha : ClientState.active.toNat ≤ w.cl.state.toNat)
    (hcl : g.com_cl_running = 0) (hfp : g.sv_floodProtect ≠ 0)
    (hseq : seq = w.cl.lastClientCommand + 1) :
    (g.svsTime < w.cl.nextReliableTime →
      (SV_ClientCommand g w seq args).world.cl.numcmds = w.cl.numcmds + 1 ∧
      ((SV_ClientCommand g w seq args).clientOk = false ↔
        g.sv_floodProtect < w.cl.numcmds + 1)) ∧
    (¬ g.svsTime < w.cl.nextReliableTime →
      (SV_ClientCommand g w seq args).world.cl.numcmds = 1 ∧
      (SV_ClientCommand g w seq args).clientOk = true) ∧
    (SV_ClientCommand g w seq args).world.cl.nextReliableTime = g.svsTime + 1000 ∧
    (SV_ClientCommand g w seq args).world.cl.lastClientCommand = seq ∧
    ((SV_ClientCommand g w seq args).clientOk = false →
      Effect.gameClientCommand ∉ (SV_ClientCommand g w seq args).effects) ∧
    (∀ (w2 : World) (args2 : List String), isBuiltin (argvD args2 0) = true →
      SV_ExecuteClientCommand g w2 args2 false =
        SV_ExecuteClientCommand g w2 args2 true) := by
  have h1 : ¬ w.cl.lastClientCommand ≥ seq := by omega
  have h2 : ¬ seq > w.cl.lastClientCommand + 1 := by omega
  have hc : g.com_cl_running = 0 ∧ ClientState.active.toNat ≤ w.cl.state.toNat ∧
      g.sv_floodProtect ≠ 0 := ⟨hcl, ha, hfp⟩
  refine ⟨?_, ?_, ?_, ?_, ?_, ?_⟩
  · intro ht
    constructor
    · simp only [SV_ClientCommand, if_neg h1, if_neg h2, if_pos hc, if_pos ht]
      simp [execCC_numcmds]
    · simp only [SV_ClientCommand, if_neg h1, if_neg h2, if_pos hc, if_pos ht]
      by_cases hgt : w.cl.numcmds + 1 > g.sv_floodProtect
      all_goals simp [hgt]
  · intro ht
    constructor
    · simp only [SV_ClientCommand, if_neg h1, if_neg h2, if_pos hc, if_neg ht]
      simp [execCC_numcmds]
    · simp only [SV_ClientCommand, if_neg h1, if_neg h2, if_pos hc, if_neg ht]
  · by_cases ht : g.svsTime < w.cl.nextReliableTime
    · simp only [SV_ClientCommand, if_neg h1, if_neg h2, if_pos hc, if_pos ht]
      rw [execCC_nextReliableTime]
    · simp only [SV_ClientCommand, if_neg h1, if_neg h2, if_pos hc, if_neg ht]
      rw [execCC_nextReliableTime]
  · simp only [SV_ClientCommand, if_neg h1, if_neg h2]
  · intro hok
    simp only [SV_ClientCommand, if_neg h1, if_neg h2] at hok ⊢
    rw [hok]
    exact execCC_noGameCmd_of_notOk g _ args
  · intro w2 args2 hb
    simp [SV_ExecuteClientCommand, hb]

/-- Closed witness for `clientCommand_floodProtect`. -/
theorem clientCommand_floodProtect_witness :
    (gTest.svsTime < wActive.cl.nextReliableTime →
      (SV_ClientCommand gTest wActive 1 ["say", "hi"]).world.cl.numcmds =
        wActive.cl.numcmds + 1 ∧
      ((SV_ClientCommand gTest wActive 1 ["say", "hi"]).clientOk = false ↔
        gTest.sv_floodProtect < wActive.cl.numcmds + 1)) ∧
    (¬ gTest.svsTime < wActive.cl.nextReliableTime →
      (SV_ClientCommand gTest wActive 1 ["say", "hi"]).world.cl.numcmds = 1 ∧
      (SV_ClientCommand gTest wActive 1 ["say", "hi"]).clientOk = true) ∧
    (SV_ClientCommand gTest wActive 1 ["say", "hi"]).world.cl.nextReliableTime =
      gTest.svsTime + 1000 ∧
    (SV_ClientCommand gTest wActive 1 ["say", "hi"]).world.cl.lastClientCommand = 1 ∧
    ((SV_ClientCommand gTest wActive 1 ["say", "hi"]).clientOk = false →
      Effect.gameClientCommand ∉ (SV_ClientCommand gTest wActive 1 ["say", "hi"]).effects) ∧
    (∀ (w2 : World) (args2 : List String), isBuiltin (argvD args2 0) = true →
      SV_ExecuteClientCommand gTest w2 args2 false =
        SV_ExecuteClientCommand gTest w2 args2 true) :=
  clientCommand_floodProtect gTest wActive 1 ["say", "hi"] (by decide) rfl (by decide)
    (by decide)

/-- The `serverTime`s of the `client_think` invocations recorded in a trace. -/
def thinkTimes (l : List Effect) : List Int :=
  l.filterMap (fun e => match e with | .gameClientThink t => some t | _ => none)

/-- An active client's think call records exactly one invocation. -/
theorem clientThink_active_effects (w : World) (c : Usercmd)
    (ha : w.cl.state = ClientState.active) :
    (SV_ClientThink w c).2 = [Effect.gameClientThink c.serverTime] := by
  simp [SV_ClientThink, ha]

/-- C6: For every batch of decoded usercmds processed while the client is
ACTIVE, the game hook `client_think` is invoked only on cmds whose
`serverTime` strictly exceeds the previous invocation's (tracked in
`lastUsercmd`, starting from its value before the batch): the recorded
invocation times form a strictly increasing chain above the initial
`lastUsercmd.serverTime`; a cmd with `serverTime` greater than the batch's
last cmd's `serverTime` is never invoked (every invocation time is at most
that bound); and `lastUsercmd` ends at the last invoked cmd (or stays put
when nothing is invoked). -/
theorem userMove_think_monotone (lastTime : Int) (w : World) (cmds : List Usercmd)
    (ha : w.cl.state = ClientState.active) :
    List.Chain' (· < ·)
      (w.cl.lastUsercmd.serverTime :: thinkTimes (runCmds lastTime w cmds).2) ∧
    (∀ t ∈ thinkTimes (runCmds lastTime w cmds).2, t ≤ lastTime) ∧
    (runCmds lastTime w cmds).1.cl.lastUsercmd.serverTime =
      (thinkTimes (runCmds lastTime w cmds).2).getLastD
        w.cl.lastUsercmd.serverTime := by
  induction cmds generalizing w with
  | nil => simp [runCmds, thinkTimes]
  | cons c rest ih =>
    by_cases h1 : lastTime < c.serverTime
    · simpa [runCmds, h1] using ih w ha
    · by_cases h2 : c.serverTime ≤ w.cl.lastUsercmd.serverTime
      · simpa [runCmds, h1, h2] using ih w ha
      · have hw' : (SV_ClientThink w c).1.cl.state = ClientState.active := by
          rw [clientThink_world]; exact ha
        have hlast : (SV_ClientThink w c).1.cl.lastUsercmd.serverTime = c.serverTime := by
          rw [clientThink_world]
        obtain ⟨ihA, ihB, ihC⟩ := ih (SV_ClientThink w c).1 hw'
        have heff : (runCmds lastTime w (c :: rest)).2 =
            Effect.gameClientThink c.serverTime ::
              (runCmds lastTime (SV_ClientThink w c).1 rest).2 := by
          simp only [runCmds, if_neg h1, if_neg h2]
          rw [clientThink_active_effects w c ha]
          simp
        have hfst : (runCmds lastTime w (c :: rest)).1 =
            (runCmds lastTime (SV_ClientThink w c).1 rest).1 := by
          simp only [runCmds, if_neg h1, if_neg h2]
        refine ⟨?_, ?_, ?_⟩
        · rw [heff]
          simp only [thinkTimes, List.filterMap_cons]
          rw [List.chain'_cons]
          constructor
          · omega
          · rw [hlast] at ihA
            exact ihA
        · rw [heff]
          simp only [thinkTimes, List.filterMap_cons]
          intro t ht
          rcases List.mem_cons.mp ht with rfl | ht2
          · omega
          · exact ihB t ht2
        · rw [heff, hfst]
          simp only [thinkTimes, List.filterMap_cons]
          rw [List.getLastD_cons]
          rw [hlast] at ihC
          exact ihC

/-- Closed witness for `userMove_think_monotone`. -/
theorem userMove_think_monotone_witness :
    List.Chain' (· < ·)
      (wActive.cl.lastUsercmd.serverTime ::
        thinkTimes (runCmds 30 wActive [⟨10⟩, ⟨10⟩, ⟨20⟩, ⟨50⟩]).2) ∧
    (∀ t ∈ thinkTimes (runCmds 30 wActive [⟨10⟩, ⟨10⟩, ⟨20⟩, ⟨50⟩]).2, t ≤ 30) ∧
    (runCmds 30 wActive [⟨10⟩, ⟨10⟩, ⟨20⟩, ⟨50⟩]).1.cl.lastUsercmd.serverTime =
      (thinkTimes (runCmds 30 wActive [⟨10⟩, ⟨10⟩, ⟨20⟩, ⟨50⟩]).2).getLastD
        wActive.cl.lastUsercmd.serverTime :=
  userMove_think_monotone 30 wActive [⟨10⟩, ⟨10⟩, ⟨20⟩, ⟨50⟩] rfl

/-- The usercmd loop does not change the reliable counters. -/
theorem runCmds_fields (t : Int) (w : World) (cs : List Usercmd) :
    (runCmds t w cs).1.cl.reliableSequence = w.cl.reliableSequence ∧
    (runCmds t w cs).1.cl.reliableAcknowledge = w.cl.reliableAcknowledge := by
  obtain ⟨u, hu⟩ := runCmds_world t w cs
  rw [hu]
  exact ⟨rfl, rfl⟩

/-- One reliable command does not change the reliable counters. -/
theorem relView_clientCommand (g : Globals) (w : World) (seq : Int) (args : List String) :
    (SV_ClientCommand g w seq args).world.cl.reliableSequence = w.cl.reliableSequence ∧
    (SV_ClientCommand g w seq args).world.cl.reliableAcknowledge =
      w.cl.reliableAcknowledge := by
  simp only [SV_ClientCommand]
  repeat' split
  all_goals first
    | exact ⟨rfl, rfl⟩
    | exact ⟨(seqView_fields (seqView_drop g w _)).2.2.1,
             (seqView_fields (seqView_drop g w _)).2.2.2.1⟩
    | exact ⟨(seqView_fields (seqView_execCC g _ args _)).2.2.1,
             (seqView_fields (seqView_execCC g _ args _)).2.2.2.1⟩

/-- The reliable-command loop does not change the reliable counters. -/
theorem relView_runClientCommands (g : Globals) (w : World)
    (cs : List (Int × List String)) :
    (runClientCommands g w cs).1.cl.reliableSequence = w.cl.reliableSequence ∧
    (runClientCommands g w cs).1.cl.reliableAcknowledge = w.cl.reliableAcknowledge := by
  induction cs generalizing w with
  | nil => exact ⟨rfl, rfl⟩
  | cons p rest ih =>
    obtain ⟨seq, args⟩ := p
    simp only [runClientCommands]
    split
    · exact relView_clientCommand g w seq args
    · split
      · exact relView_clientCommand g w seq args
      · obtain ⟨hA, hB⟩ := ih (SV_ClientCommand g w seq args).world
        obtain ⟨hC, hD⟩ := relView_clientCommand g w seq args
        exact ⟨hA.trans hC, hB.trans hD⟩

/-- A usercmd batch does not change the reliable counters. -/
theorem relView_userMove (g : Globals) (w : World) (delta : Bool) (cmds : List Usercmd) :
    (SV_UserMove g w delta cmds).1.cl.reliableSequence = w.cl.reliableSequence ∧
    (SV_UserMove g w delta cmds).1.cl.reliableAcknowledge = w.cl.reliableAcknowledge := by
  simp only [SV_UserMove]
  repeat' split
  all_goals first
    | exact ⟨rfl, rfl⟩
    | exact ⟨(seqView_fields (seqView_gamestate g _)).2.2.1,
             (seqView_fields (seqView_gamestate g _)).2.2.2.1⟩
    | exact ⟨(seqView_fields (seqView_drop g _ _)).2.2.1,
             (seqView_fields (seqView_drop g _ _)).2.2.2.1⟩
    | exact ⟨(runCmds_fields _ _ _).1, (runCmds_fields _ _ _).2⟩

/-- After the header guard passes, the message body never changes
`reliableSequence`, and `reliableAcknowledge` keeps the value read from the
message header. -/
theorem relView_executeMsg_pass (g : Globals) (w : World) (m : ClientMessage)
    (hma : ¬ m.messageAcknowledge < 0)
    (hg : ¬ m.reliableAcknowledge < w.cl.reliableSequence - MAX_RELIABLE_COMMANDS) :
    (SV_ExecuteClientMessage g w m).1.cl.reliableSequence = w.cl.reliableSequence ∧
    (SV_ExecuteClientMessage g w m).1.cl.reliableAcknowledge =
      m.reliableAcknowledge := by
  simp only [SV_ExecuteClientMessage, if_neg hma]
  rw [if_neg hg]
  repeat' split
  all_goals first
    | exact ⟨rfl, rfl⟩
    | exact ⟨(seqView_fields (seqView_gamestate g _)).2.2.1,
             (seqView_fields (seqView_gamestate g _)).2.2.2.1⟩
    | exact ⟨(relView_runClientCommands g _ _).1, (relView_runClientCommands g _ _).2⟩
    | exact ⟨((relView_userMove g _ _ _).1).trans (relView_runClientCommands g _ _).1,
             ((relView_userMove g _ _ _).2).trans (relView_runClientCommands g _ _).2⟩

/-- C8 (amended): After processing any inbound in-band message (with a
non-negative message acknowledge), `reliableAcknowledge` is at least
`reliableSequence - MAX_RELIABLE_COMMANDS`; a message carrying a
`reliableAcknowledge` below that bound is discarded — the only changes are
the two header fields, with the acknowledge reset to `reliableSequence`, and
no effect is produced. (The upper bound `reliableAcknowledge ≤
reliableSequence` is not enforced by the code.) -/
theorem executeClientMessage_reliableWindow (g : Globals) (w : World)
    (m : ClientMessage) (hma : 0 ≤ m.messageAcknowledge) :
    (SV_ExecuteClientMessage g w m).1.cl.reliableSequence - MAX_RELIABLE_COMMANDS ≤
      (SV_ExecuteClientMessage g w m).1.cl.reliableAcknowledge ∧
    (m.reliableAcknowledge < w.cl.reliableSequence - MAX_RELIABLE_COMMANDS →
      SV_ExecuteClientMessage g w m =
        ({ w with cl := { w.cl with messageAcknowledge := m.messageAcknowledge,
                                    reliableAcknowledge := w.cl.reliableSequence } },
         [])) := by
  have hneg : ¬ m.messageAcknowledge < 0 := by omega
  by_cases hg : m.reliableAcknowledge < w.cl.reliableSequence - MAX_RELIABLE_COMMANDS
  · constructor
    · simp only [SV_ExecuteClientMessage, if_neg hneg]
      rw [if_pos hg]
      simp [MAX_RELIABLE_COMMANDS]
    · intro _
      simp only [SV_ExecuteClientMessage, if_neg hneg]
      rw [if_pos hg]
  · constructor
    · obtain ⟨hA, hB⟩ := relView_executeMsg_pass g w m hneg hg
      rw [hA, hB]
      omega
    · intro hcontra
      exact absurd hcontra hg

/-- Closed witness for `executeClientMessage_reliableWindow`. -/
theorem executeClientMessage_reliableWindow_witness :
    (SV_ExecuteClientMessage gTest wActive ⟨7, 0, 0, [], none⟩).1.cl.reliableSequence -
        MAX_RELIABLE_COMMANDS ≤
      (SV_ExecuteClientMessage gTest wActive ⟨7, 0, 0, [], none⟩).1.cl.reliableAcknowledge ∧
    ((0 : Int) < wActive.cl.reliableSequence - MAX_RELIABLE_COMMANDS →
      SV_ExecuteClientMessage gTest wActive ⟨7, 0, 0, [], none⟩ =
        ({ wActive with cl := { wActive.cl with messageAcknowledge := 0,
                                                reliableAcknowledge :=
                                                  wActive.cl.reliableSequence } },
         [])) :=
  executeClientMessage_reliableWindow gTest wActive ⟨7, 0, 0, [], none⟩ (by decide)

/-- C8 counterexample: a message carrying `reliableAcknowledge = 5` while the
client's `reliableSequence` is 0 passes the guard (5 is not below
`0 - MAX_RELIABLE_COMMANDS`) and leaves `reliableAcknowledge = 5 >
reliableSequence = 0`, violating the claimed invariant
`reliableAcknowledge ≤ reliableSequence`. -/
theorem reliableAck_above_sequence :
    (SV_ExecuteClientMessage gTest wActive ⟨7, 0, 5, [], none⟩).1.cl.reliableAcknowledge = 5 ∧
    (SV_ExecuteClientMessage gTest wActive ⟨7, 0, 5, [], none⟩).1.cl.reliableSequence = 0 ∧
    ¬ ((SV_ExecuteClientMessage gTest wActive ⟨7, 0, 5, [], none⟩).1.cl.reliableAcknowledge ≤
        (SV_ExecuteClientMessage gTest wActive ⟨7, 0, 5, [], none⟩).1.cl.reliableSequence) :=
  ⟨rfl, rfl, by decide⟩

/-- Dropping preserves rate and the snapshot pacing fields. -/
theorem rateView_drop (g : Globals) (w : World) (reason : String) :
    (SV_DropClient g w reason).1.cl.rate = w.cl.rate ∧
    (SV_DropClient g w reason).1.cl.snapshotMsec = w.cl.snapshotMsec ∧
    (SV_DropClient g w reason).1.cl.lastSnapshotTime = w.cl.lastSnapshotTime := by
  simp only [SV_DropClient]
  split <;> exact ⟨rfl, rfl, rfl⟩

/-- The computed rate is always clamped into `[1000, 100000]`. -/
theorem userinfoComputed_rate_bounds (g : Globals) (cl : Client) :
    1000 ≤ (userinfoComputed g cl).rate ∧ (userinfoComputed g cl).rate ≤ 100000 := by
  simp only [userinfoComputed]
  repeat' split
  all_goals omega

/-- Under LAN force-rate the computed rate is the 100000 cap. -/
theorem userinfoComputed_rate_lan (g : Globals) (cl : Client)
    (h : Sys_IsLANAddress cl.remoteAddress ∧ g.com_dedicated ≠ 2 ∧ g.sv_lanForceRate = 1) :
    (userinfoComputed g cl).rate = 100000 := by
  simp only [userinfoComputed]
  rw [if_pos h]

/-- Without LAN force-rate and with no `rate` key, the rate defaults to 5000. -/
theorem userinfoComputed_rate_default (g : Globals) (cl : Client)
    (h : ¬ (Sys_IsLANAddress cl.remoteAddress ∧ g.com_dedicated ≠ 2 ∧
            g.sv_lanForceRate = 1))
    (hv : infoValue cl.userinfo "rate" = "") :
    (userinfoComputed g cl).rate = 5000 := by
  simp only [userinfoComputed]
  rw [if_neg h]
  simp [hv]

/-- The clamped snaps value lies in `[1, sv_fps]`. -/
theorem snapsOf_bounds (g : Globals) (u : Userinfo) (hfps : 1 ≤ g.sv_fps) :
    1 ≤ snapsOf g u ∧ snapsOf g u ≤ g.sv_fps := by
  simp only [snapsOf]
  repeat' split
  all_goals omega

/-- The computed snapshot interval is `1000 / snaps` for the clamped snaps. -/
theorem userinfoComputed_snapMsec (g : Globals) (cl : Client) :
    (userinfoComputed g cl).snapMsec = 1000 / snapsOf g (handicapAdjust cl.userinfo) := by
  simp only [userinfoComputed]
  split
  · rfl
  · rename_i h
    exact (not_ne_iff.mp h).symm

/-- When the snapshot interval changes, the last snapshot time is reset. -/
theorem userinfoComputed_lastSnap (g : Globals) (cl : Client)
    (h : (userinfoComputed g cl).snapMsec ≠ cl.snapshotMsec) :
    (userinfoComputed g cl).lastSnap = 0 := by
  revert h
  simp only [userinfoComputed]
  split
  · intro _
    rfl
  · intro h2
    exact absurd rfl h2

/-- `SV_UserinfoChanged` writes exactly the computed rate and snapshot
fields, also on the overflow-drop path. -/
theorem userinfoChanged_fields (g : Globals) (w : World) :
    (SV_UserinfoChanged g w).1.cl.rate = (userinfoComputed g w.cl).rate ∧
    (SV_UserinfoChanged g w).1.cl.snapshotMsec = (userinfoComputed g w.cl).snapMsec ∧
    (SV_UserinfoChanged g w).1.cl.lastSnapshotTime =
      (userinfoComputed g w.cl).lastSnap := by
  simp only [SV_UserinfoChanged, userinfoChangedCore, userinfoCoreAux]
  repeat' split
  all_goals first
    | exact ⟨rfl, rfl, rfl⟩
    | exact ⟨(rateView_drop g _ _).1, (rateView_drop g _ _).2.1,
             (rateView_drop g _ _).2.2⟩

/-- C9: After `SV_UserinfoChanged`, the rate lies in `[1000, 100000]`
(100000 under LAN force-rate, 5000 when the key is absent otherwise), the
clamped snaps value lies in `[1, sv_fps]`, `snapshotMsec` equals `1000 /
snaps` for the clamped snaps, and whenever `snapshotMsec` changed,
`lastSnapshotTime` is reset to 0. -/
theorem userinfoChanged_clamps (g : Globals) (w : World) (hfps : 1 ≤ g.sv_fps) :
    (1000 ≤ (SV_UserinfoChanged g w).1.cl.rate ∧
      (SV_UserinfoChanged g w).1.cl.rate ≤ 100000) ∧
    ((Sys_IsLANAddress w.cl.remoteAddress ∧ g.com_dedicated ≠ 2 ∧
        g.sv_lanForceRate = 1) →
      (SV_UserinfoChanged g w).1.cl.rate = 100000) ∧
    (¬ (Sys_IsLANAddress w.cl.remoteAddress ∧ g.com_dedicated ≠ 2 ∧
        g.sv_lanForceRate = 1) →
      infoValue w.cl.userinfo "rate" = "" →
      (SV_UserinfoChanged g w).1.cl.rate = 5000) ∧
    (1 ≤ snapsOf g (handicapAdjust w.cl.userinfo) ∧
      snapsOf g (handicapAdjust w.cl.userinfo) ≤ g.sv_fps) ∧
    (SV_UserinfoChanged g w).1.cl.snapshotMsec =
      1000 / snapsOf g (handicapAdjust w.cl.userinfo) ∧
    ((SV_UserinfoChanged g w).1.cl.snapshotMsec ≠ w.cl.snapshotMsec →
      (SV_UserinfoChanged g w).1.cl.lastSnapshotTime = 0) := by
  obtain ⟨hr, hs, hl⟩ := userinfoChanged_fields g w
  refine ⟨?_, ?_, ?_, ?_, ?_, ?_⟩
  · rw [hr]
    exact userinfoComputed_rate_bounds g w.cl
  · intro h
    rw [hr]
    exact userinfoComputed_rate_lan g w.cl h
  · intro h hv
    rw [hr]
    exact userinfoComputed_rate_default g w.cl h hv
  · exact snapsOf_bounds g (handicapAdjust w.cl.userinfo) hfps
  · rw [hs]
    exact userinfoComputed_snapMsec g w.cl
  · intro hch
    rw [hs] at hch
    rw [hl]
    exact userinfoComputed_lastSnap g w.cl hch

/-- Closed witness for `userinfoChanged_clamps`. -/
theorem userinfoChanged_clamps_witness :
    (1000 ≤ (SV_UserinfoChanged gTest wConn).1.cl.rate ∧
      (SV_UserinfoChanged gTest wConn).1.cl.rate ≤ 100000) ∧
    ((Sys_IsLANAddress wConn.cl.remoteAddress ∧ gTest.com_dedicated ≠ 2 ∧
        gTest.sv_lanForceRate = 1) →
      (SV_UserinfoChanged gTest wConn).1.cl.rate = 100000) ∧
    (¬ (Sys_IsLANAddress wConn.cl.remoteAddress ∧ gTest.com_dedicated ≠ 2 ∧
        gTest.sv_lanForceRate = 1) →
      infoValue wConn.cl.userinfo "rate" = "" →
      (SV_UserinfoChanged gTest wConn).1.cl.rate = 5000) ∧
    (1 ≤ snapsOf gTest (handicapAdjust wConn.cl.userinfo) ∧
      snapsOf gTest (handicapAdjust wConn.cl.userinfo) ≤ gTest.sv_fps) ∧
    (SV_UserinfoChanged gTest wConn).1.cl.snapshotMsec =
      1000 / snapsOf gTest (handicapAdjust wConn.cl.userinfo) ∧
    ((SV_UserinfoChanged gTest wConn).1.cl.snapshotMsec ≠ wConn.cl.snapshotMsec →
      (SV_UserinfoChanged gTest wConn).1.cl.lastSnapshotTime = 0) :=
  userinfoChanged_clamps gTest wConn (by decide)

/-! 32-bit arithmetic facts for the pure-checksum fold. -/

/-- Every 32-bit pattern is below `2^32`. -/
theorem nat32_lt (i : Int) : nat32 i < 2 ^ 32 := by
  simp only [nat32]
  have h1 : 0 ≤ i % (2 ^ 32 : Int) := Int.emod_nonneg i (by norm_num)
  have h2 : i % (2 ^ 32 : Int) < 2 ^ 32 := Int.emod_lt_of_pos i (by norm_num)
  omega

/-- Reinterpreting a pattern as a signed value keeps the pattern. -/
theorem nat32_int32ofNat {n : Nat} (h : n < 2 ^ 32) : nat32 (int32ofNat n) = n := by
  simp only [int32ofNat, nat32]
  split <;> omega

/-- The pattern of the 32-bit XOR is the XOR of the patterns. -/
theorem nat32_xor32 (a b : Int) : nat32 (xor32 a b) = Nat.xor (nat32 a) (nat32 b) := by
  simp only [xor32]
  exact nat32_int32ofNat (Nat.xor_lt_two_pow (nat32_lt a) (nat32_lt b))

/-- Reinterpreted patterns are already truncated. -/
theorem int32_int32ofNat {n : Nat} (h : n < 2 ^ 32) :
    int32 (int32ofNat n) = int32ofNat n := by
  simp only [int32]
  rw [nat32_int32ofNat h]

/-- Truncation is idempotent. -/
theorem int32_idem (x : Int) : int32 (int32 x) = int32 x :=
  int32_int32ofNat (nat32_lt x)

/-- XOR results are truncated. -/
theorem int32_xor32 (a b : Int) : int32 (xor32 a b) = xor32 a b :=
  int32_int32ofNat (Nat.xor_lt_two_pow (nat32_lt a) (nat32_lt b))

/-- Parsed values are truncated. -/
theorem int32_atoi (s : String) : int32 (atoi s) = atoi s := int32_idem (atoiRaw s)

/-- Truncated values with equal patterns are equal. -/
theorem norm_nat32_inj {x y : Int} (hx : int32 x = x) (hy : int32 y = y)
    (h : nat32 x = nat32 y) : x = y := by
  rw [← hx, ← hy]
  simp only [int32, h]

/-- XOR by a common right operand is pattern-cancellative. -/
theorem xor32_right_cancel {a b c : Int} (h : xor32 a c = xor32 b c) :
    nat32 a = nat32 b := by
  have h2 := congrArg nat32 h
  rw [nat32_xor32, nat32_xor32] at h2
  exact Nat.xor_left_inj.mp h2

/-- Folding XOR over a common list is pattern-cancellative in the seed. -/
theorem foldl_xor32_acc_inj (l : List Int) : ∀ {a b : Int},
    List.foldl xor32 a l = List.foldl xor32 b l → nat32 a = nat32 b := by
  induction l with
  | nil =>
    intro a b h
    simpa using congrArg nat32 h
  | cons x xs ih =>
    intro a b h
    simp only [List.foldl_cons] at h
    have h2 := ih h
    rw [nat32_xor32, nat32_xor32] at h2
    exact Nat.xor_left_inj.mp h2

/-- A nonempty XOR fold is truncated. -/
theorem int32_foldl_xor32 (l : List Int) : ∀ (a : Int), l ≠ [] →
    int32 (List.foldl xor32 a l) = List.foldl xor32 a l := by
  induction l with
  | nil =>
    intro a h
    exact absurd rfl h
  | cons x xs ih =>
    intro a h
    cases hx : xs with
    | nil =>
      subst hx
      simpa using int32_xor32 a x
    | cons y ys =>
      subst hx
      simp only [List.foldl_cons]
      exact ih (xor32 a x) (by simp)

/-- Replacing one element of an XOR fold with a different truncated value
changes the fold: the fold determines each element. -/
theorem foldl_xor32_set (l : List Int) : ∀ (i : Nat) (f v' : Int),
    i < l.length → (∀ x ∈ l, int32 x = x) → int32 v' = v' →
    List.foldl xor32 f (l.set i v') = List.foldl xor32 f l →
    v' = l.getD i 0 := by
  induction l with
  | nil =>
    intro i f v' hi
    simp at hi
  | cons x xs ih =>
    intro i f v' hi hnorm hv heq
    cases i with
    | zero =>
      simp only [List.set_cons_zero, List.foldl_cons] at heq
      have h2 := foldl_xor32_acc_inj xs heq
      rw [nat32_xor32, nat32_xor32] at h2
      have h3 := Nat.xor_right_inj.mp h2
      have hx : int32 x = x := hnorm x (by simp)
      simp only [List.getD_cons_zero]
      exact norm_nat32_inj hv hx h3
    | succ j =>
      simp only [List.set_cons_succ, List.foldl_cons] at heq
      simp only [List.getD_cons_succ]
      refine ih j (xor32 f x) v' ?_ ?_ hv heq
      · simpa using hi
      · intro z hz
        exact hnorm z (by simp [hz])

/-- Setting an element commutes with `dropLast`. -/
theorem dropLast_set {l : List Int} {i : Nat} {a : Int} :
    (l.set i a).dropLast = l.dropLast.set i a := by
  apply List.ext_getElem
  · simp
  · intro n h1 h2
    simp [List.getElem_dropLast, List.getElem_set]

/-- Setting an element below the last position keeps the last element. -/
theorem getLastD_set {l : List Int} {i : Nat} {a d : Int} (h : i < l.length - 1) :
    (l.set i a).getLastD d = l.getLastD d := by
  rw [List.getLastD_eq_getLast?, List.getLastD_eq_getLast?, List.getLast?_eq_getElem?,
      List.getLast?_eq_getElem?, List.length_set]
  rw [List.getElem?_set_ne (by omega)]

/-- Replacing the `i`-th checksum argument of a `cp` command replaces the
`i`-th parsed checksum and keeps the folded value. -/
theorem clientChks_set (args : List String) (i : Nat) (s' : String)
    (hi : i < (clientChksOf args).length) :
    clientChksOf (args.set (5 + i) s') = (clientChksOf args).set i (atoi s') ∧
    foldedOf (args.set (5 + i) s') = foldedOf args := by
  have hdrop : (args.set (5 + i) s').drop 5 = (args.drop 5).set i s' :=
    List.set_drop.symm
  have hlen : i < ((args.drop 5).map atoi).length - 1 := by
    simpa [clientChksOf] using hi
  constructor
  · simp only [clientChksOf, hdrop, List.map_set]
    exact dropLast_set
  · simp only [foldedOf, hdrop, List.map_set]
    exact getLastD_set hlen

/-- An accepted `cp` batch satisfies the fold equation. -/
theorem verify_fold_eq (g : Globals) (args : List String)
    (h : verifyPaksGood g args = true) :
    pureFold g (clientChksOf args) = foldedOf args := by
  simp only [verifyPaksGood] at h
  repeat' split at h
  all_goals first
    | exact eq_of_beq h
    | exact absurd h (by simp)

/-- C2 (amended): Pure-content verification accepts a `cp` command only if
the folded value equals `checksumFeed` XOR (XOR of all client checksums) XOR
n (the number of client checksums); and for every accepted batch, replacing
any single checksum argument with one parsing to a different value (keeping
n and the folded value) causes rejection. (Changing n itself need not cause
rejection — see the accompanying counterexample.) -/
theorem verifyPaks_fold (g : Globals) (args : List String) (i : Nat) (s' : String)
    (hacc : verifyPaksGood g args = true)
    (hi : i < (clientChksOf args).length)
    (hne : atoi s' ≠ (clientChksOf args).getD i 0) :
    pureFold g (clientChksOf args) = foldedOf args ∧
    verifyPaksGood g (args.set (5 + i) s') = false := by
  refine ⟨verify_fold_eq g args hacc, ?_⟩
  rcases Bool.eq_false_or_eq_true (verifyPaksGood g (args.set (5 + i) s')) with hb | hb
  swap
  · exact hb
  · exfalso
    obtain ⟨hchks, hfold⟩ := clientChks_set args i s' hi
    have h1 := verify_fold_eq g _ hb
    rw [hchks, hfold] at h1
    have h0 := verify_fold_eq g args hacc
    have hp : pureFold g ((clientChksOf args).set i (atoi s')) =
        pureFold g (clientChksOf args) := h1.trans h0.symm
    simp only [pureFold, List.length_set] at hp
    have hf := xor32_right_cancel hp
    have hnorm : ∀ x ∈ clientChksOf args, int32 x = x := by
      intro x hx
      have hx2 : x ∈ (args.drop 5).map atoi :=
        List.Sublist.mem hx (List.dropLast_sublist _)
      obtain ⟨s0, _, rfl⟩ := List.mem_map.mp hx2
      exact int32_atoi s0
    have hne2 : clientChksOf args ≠ [] := by
      intro hempty
      rw [hempty] at hi
      simp at hi
    have hne3 : (clientChksOf args).set i (atoi s') ≠ [] := by
      intro hempty
      have hlen := congrArg List.length hempty
      simp only [List.length_set, List.length_nil] at hlen
      omega
    have hF : List.foldl xor32 g.checksumFeed ((clientChksOf args).set i (atoi s')) =
        List.foldl xor32 g.checksumFeed (clientChksOf args) :=
      norm_nat32_inj (int32_foldl_xor32 _ _ hne3) (int32_foldl_xor32 _ _ hne2) hf
    exact hne (foldl_xor32_set (clientChksOf args) i g.checksumFeed (atoi s') hi hnorm
      (int32_atoi s') hF)

/-- Closed witness for `verifyPaks_fold`. -/
theorem verifyPaks_fold_witness :
    pureFold gTest (clientChksOf ["cp", "1", "7", "9", "@", "3", "5", "4"]) =
      foldedOf ["cp", "1", "7", "9", "@", "3", "5", "4"] ∧
    verifyPaksGood gTest ((["cp", "1", "7", "9", "@", "3", "5", "4"]).set (5 + 0) "9") =
      false :=
  verifyPaks_fold gTest ["cp", "1", "7", "9", "@", "3", "5", "4"] 0 "9" (by decide)
    (by decide) (by decide)

/-- C2 counterexample: changing n does not always cause rejection. The batch
`cp 1 7 9 @ 3 5 4` (n = 2) and the batch `cp 1 7 9 @ 5 4` (n = 1, checksum 3
removed, same folded value 4) are both accepted by the validation ladder,
because removing a checksum equal to `n XOR (n-1)` preserves the fold. -/
theorem verifyPaks_n_change_accepted :
    verifyPaksGood gTest ["cp", "1", "7", "9", "@", "3", "5", "4"] = true ∧
    verifyPaksGood gTest ["cp", "1", "7", "9", "@", "5", "4"] = true ∧
    (clientChksOf ["cp", "1", "7", "9", "@", "3", "5", "4"]).length = 2 ∧
    (clientChksOf ["cp", "1", "7", "9", "@", "5", "4"]).length = 1 ∧
    foldedOf ["cp", "1", "7", "9", "@", "3", "5", "4"] =
      foldedOf ["cp", "1", "7", "9", "@", "5", "4"] := by
  refine ⟨?_, ?_, ?_, ?_, ?_⟩ <;> decide

/-- Dropping preserves the pure-authentication flag. -/
theorem pureView_drop (g : Globals) (w : World) (reason : String) :
    (SV_DropClient g w reason).1.cl.pureAuthentic = w.cl.pureAuthentic := by
  simp only [SV_DropClient]
  split <;> rfl

/-- C4 counterexample: a PRIMED client sending a failing `cp` (valid epoch)
has the snapshot forced out at state ACTIVE — not at its pre-failure state
PRIMED — and the drop reason is the full string "Unpure client detected.
Invalid .PK3 files referenced!", not the claimed "Unpure client detected.". -/
theorem verifyPaks_failure_state :
    (SV_VerifyPaks_f gTest ⟨clPrimed, [], []⟩ ["cp", "1", "8", "9", "@", "3", "4"]).2.head? =
      some (Effect.sendSnapshot ClientState.active) ∧
    ClientState.active ≠ ClientState.primed ∧
    (⟨clPrimed, [], []⟩ : World).cl.state = ClientState.primed ∧
    Effect.sendDisconnect "Unpure client detected. Invalid .PK3 files referenced!" ∈
      (SV_VerifyPaks_f gTest ⟨clPrimed, [], []⟩ ["cp", "1", "8", "9", "@", "3", "4"]).2 ∧
    "Unpure client detected. Invalid .PK3 files referenced!" ≠
      "Unpure client detected." := by
  refine ⟨rfl, by decide, rfl, by decide, by decide⟩

/-- C4 (amended): For every `cp` command on a pure server whose serverId is
not below the checksum-feed epoch: on validation success the handler sets
`pureAuthentic = 1` and `gotCP`, leaving everything else (the state in
particular) unchanged and emitting nothing; on validation failure it sets
`pureAuthentic = 0`, forces one snapshot send with the client's state forced
to ACTIVE, and then drops the client with reason "Unpure client detected.
Invalid .PK3 files referenced!". -/
theorem verifyPaks_outcome (g : Globals) (w : World) (args : List String)
    (hp : g.sv_pure ≠ 0)
    (hsid : g.checksumFeedServerId ≤ atoi (argvD args 1)) :
    (verifyPaksGood g args = true →
      SV_VerifyPaks_f g w args =
        ({ w with cl := { w.cl with gotCP := true, pureAuthentic := 1 } }, [])) ∧
    (verifyPaksGood g args = false →
      (SV_VerifyPaks_f g w args).1.cl.pureAuthentic = 0 ∧
      (SV_VerifyPaks_f g w args).2.head? =
        some (Effect.sendSnapshot ClientState.active) ∧
      Effect.sendDisconnect unpureDropReason ∈ (SV_VerifyPaks_f g w args).2) := by
  have hnot : ¬ atoi (argvD args 1) < g.checksumFeedServerId := by omega
  constructor
  · intro hg
    simp [SV_VerifyPaks_f, if_pos hp, if_neg hnot, hg]
  · intro hg
    refine ⟨?_, ?_, ?_⟩
    · simp only [SV_VerifyPaks_f, if_pos hp, if_neg hnot, hg, Bool.false_eq_true,
        if_false]
      rw [pureView_drop]
    · simp [SV_VerifyPaks_f, if_pos hp, if_neg hnot, hg]
    · simp only [SV_VerifyPaks_f, if_pos hp, if_neg hnot, hg, Bool.false_eq_true,
        if_false]
      exact List.mem_cons_of_mem _ (dropClient_sendDisconnect g _ _ (by simp))

/-- Closed witness for `verifyPaks_outcome`. -/
theorem verifyPaks_outcome_witness :
    (verifyPaksGood gTest ["cp", "1", "7", "9", "@", "3", "5", "4"] = true →
      SV_VerifyPaks_f gTest wConn ["cp", "1", "7", "9", "@", "3", "5", "4"] =
        ({ wConn with cl := { wConn.cl with gotCP := true, pureAuthentic := 1 } }, [])) ∧
    (verifyPaksGood gTest ["cp", "1", "7", "9", "@", "3", "5", "4"] = false →
      (SV_VerifyPaks_f gTest wConn ["cp", "1", "7", "9", "@", "3", "5", "4"]).1.cl.pureAuthentic = 0 ∧
      (SV_VerifyPaks_f gTest wConn ["cp", "1", "7", "9", "@", "3", "5", "4"]).2.head? =
        some (Effect.sendSnapshot ClientState.active) ∧
      Effect.sendDisconnect unpureDropReason ∈
        (SV_VerifyPaks_f gTest wConn ["cp", "1", "7", "9", "@", "3", "5", "4"]).2) :=
  verifyPaks_outcome gTest wConn ["cp", "1", "7", "9", "@", "3", "5", "4"] (by decide)
    (by decide)

/-- A local (loopback) connect skips the challenge-validation section. -/
theorem challengeStage_local (g : Globals) (sv : SServer) (adr : NetAdr) (c : Int)
    (h : NET_IsLocalAddress adr = true) :
    directConnectChallengeStage g sv adr c = .pass sv.challenges := by
  simp [directConnectChallengeStage, h]

/-- The post-challenge tail of the connect never reports a bad challenge. -/
theorem finishConnect_not_noChallenge (g : Globals) (sv : SServer) (i : Nat)
    (adr : NetAdr) (ui : Userinfo) (c q : Int) (pre : List Effect) :
    (finishConnect g sv i adr ui c q pre).2.1 ≠ ConnectOutcome.noOrBadChallenge := by
  simp only [finishConnect]
  cases g.gameDeniedReason <;> simp

/-- Slot allocation never reports a bad challenge. -/
theorem connectAlloc_not_noChallenge (g : Globals) (clients : List Client)
    (challenges : List Challenge) (adr : NetAdr) (ui : Userinfo) (c q : Int) :
    (connectAllocStage g clients challenges adr ui c q).2.1 ≠
      ConnectOutcome.noOrBadChallenge := by
  simp only [connectAllocStage]
  repeat' split
  all_goals first
    | exact finishConnect_not_noChallenge g _ _ adr ui c q _
    | simp

/-- A LAN, non-loopback address with no matching challenge record for
concrete runs. -/
def adrLAN : NetAdr := ⟨192168, 7777, false, true, false⟩

/-- A well-formed userinfo blob for concrete connect runs. -/
def uiC7 : Userinfo := [("protocol", "68"), ("challenge", "12345"), ("qport", "100")]

/-- C7 counterexample: a connect from a LAN (private-range, non-loopback)
address whose challenge matches no record does NOT bypass the challenge
lookup — it is answered with the "No or bad challenge" print, refuting the
claim that every LAN connect bypasses the challenge requirement. -/
theorem lan_connect_requires_challenge :
    Sys_IsLANAddress adrLAN = true ∧
    NET_IsLocalAddress adrLAN = false ∧
    (SV_DirectConnect gTest ⟨[], []⟩ adrLAN uiC7).2.1 =
      ConnectOutcome.noOrBadChallenge ∧
    Effect.oobPrint "No or bad challenge for your address." ∈
      (SV_DirectConnect gTest ⟨[], []⟩ adrLAN uiC7).2.2 := by
  refine ⟨rfl, rfl, ?_, ?_⟩ <;> decide

/-- C7 (amended): in `direct_connect` the challenge requirement applies
exactly to non-local (non-loopback) clients: a connect that reaches the
challenge section from a non-loopback address — LAN or not — whose userinfo
challenge matches no challenge record for that address is answered with the
"No or bad challenge" print and dropped with the server unchanged (no slot
allocated); a connect from the loopback address can never produce that
outcome. (LAN-ness only bypasses the per-IP and ping policies.) -/
theorem directConnect_challenge_scope (g : Globals) (sv : SServer) (adr : NetAdr)
    (ui : Userinfo)
    (hban : SV_IsBanned g adr = false)
    (hver : atoi (infoValue ui "protocol") = g.com_protocol)
    (hcool : quickRejectCooling g sv.clients adr (atoi (infoValue ui "qport")) = false)
    (hlen : (adrToString adr).length + infoStrLen ui + 4 < MAX_INFO_STRING)
    (hloc : NET_IsLocalAddress adr = false)
    (hnochal : sv.challenges.findIdx? (fun c => NET_CompareAdr adr c.adr &&
      (c.challenge == atoi (infoValue ui "challenge"))) = none) :
    SV_DirectConnect g sv adr ui =
      (sv, ConnectOutcome.noOrBadChallenge,
        [Effect.oobPrint "No or bad challenge for your address."]) ∧
    (∀ (sv2 : SServer) (adr2 : NetAdr) (ui2 : Userinfo),
      NET_IsLocalAddress adr2 = true →
      (SV_DirectConnect g sv2 adr2 ui2).2.1 ≠ ConnectOutcome.noOrBadChallenge) := by
  constructor
  · have hov : ¬ ((MAX_INFO_STRING : Nat) ≤ (adrToString adr).length + infoStrLen ui + 4) := by
      omega
    simp [SV_DirectConnect, hban, hver, hcool, hloc, hov, directConnectChallengeStage,
      hnochal]
  · intro sv2 adr2 ui2 hloc2
    simp only [SV_DirectConnect, challengeStage_local _ _ _ _ hloc2]
    repeat' split
    all_goals first
      | exact connectAlloc_not_noChallenge g _ _ _ _ _ _
      | simp

/-- Closed witness for `directConnect_challenge_scope`. -/
theorem directConnect_challenge_scope_witness :
    SV_DirectConnect gTest ⟨[], []⟩ adrLAN uiC7 =
      (⟨[], []⟩, ConnectOutcome.noOrBadChallenge,
        [Effect.oobPrint "No or bad challenge for your address."]) ∧
    (∀ (sv2 : SServer) (adr2 : NetAdr) (ui2 : Userinfo),
      NET_IsLocalAddress adr2 = true →
      (SV_DirectConnect gTest sv2 adr2 ui2).2.1 ≠ ConnectOutcome.noOrBadChallenge) :=
  directConnect_challenge_scope gTest ⟨[], []⟩ adrLAN uiC7 (by decide) (by decide)
    (by decide) (by decide) rfl rfl
